import Mathlib

/-!
Connection commands of miniredis (`cmd_connection.go`).

A shallow embedding of the handlers `cmdPing`, `cmdAuth`, `cmdEcho`,
`cmdSelect`, `cmdSwapdb`, `cmdQuit` and `cmdResp3`, together with the pieces
of the package they call (`handleAuth`, `checkPubsub`, `withTx`, `setDirty`,
`swapDB`, the reply writer of `server.Peer`) and Go's `strconv.Atoi`.

Conventions of the embedding:

* a Go `string` is a Lean `String`, a Go `int` is an `Int` (`Atoi` enforces the
  64-bit range, nothing else does arithmetic on it);
* the connection (`*server.Peer`) is a value: a handler takes the server and
  the peer and returns the new server and the new peer;
* what a peer has written is recorded, in order, in `Peer.trace`;
* the closures handed to `withTx` are defunctionalised: `txCmd` records which
  closure it is together with the variables the closure captures, and
  `txCmd.run` is the closure body.
-/

namespace CmdConnection

/-! ## Reply writer (`server.Peer`, `server.Writer`) -/

/-- One reply item as handed to the protocol layer. -/
inductive Item where
  /-- `WriteInline s`: simple status. -/
  | inline (s : String)
  /-- `WriteBulk s`: bulk string. -/
  | bulk (s : String)
  /-- `WriteError msg`: error reply. -/
  | error (msg : String)
  /-- `WriteLen n`: header of an array of `n` elements. -/
  | len (n : Int)
  deriving DecidableEq, Repr

/-- What a peer does on its connection, in order. -/
inductive Event where
  /-- A single reply item written directly on the peer. -/
  | write (r : Item)
  /-- The items written by one `Block` callback, not interleaved with anything. -/
  | block (rs : List Item)
  /-- `Close`. -/
  | close
  deriving DecidableEq, Repr

/-- Modelled from the spec: `SubscriptionState`, the marker whose presence (not
its contents) puts the connection in publish/subscribe mode. -/
structure SubscriptionState where
  deriving DecidableEq, Repr

/-- The closures passed to `withTx` in `cmd_connection.go`, each with the
variables it captures. -/
inductive txCmd where
  /-- The closure of `cmdPing`; captures `payload`. -/
  | ping (payload : String)
  /-- The closure of `cmdAuth`; captures `username` and `pw`. -/
  | auth (username pw : String)
  /-- The closure of `cmdEcho`; captures `args`, of which it reads `args[0]`. -/
  | echo (arg0 : String)
  /-- The closure of `cmdSelect`; captures `args`, of which it reads `args[0]`. -/
  | select (arg0 : String)
  /-- The closure of `cmdSwapdb`; captures `args`, of which it reads `args[0]`
  and `args[1]`. -/
  | swapdb (arg0 arg1 : String)
  deriving DecidableEq, Repr

/-- Modelled from the spec: `connCtx`, the per-connection context
(`ConnectionContext`: authentication flag, selected database index, nested
flag, subscription state, queuing flag, taint flag) with the pending queue of
the Transaction Wrapper. The fields `selectedDB`, `authenticated`, `nested` and
`subscriber` are the ones `cmd_connection.go` reads and writes. -/
structure connCtx where
  selectedDB : Int
  authenticated : Bool
  nested : Bool
  subscriber : Option SubscriptionState
  queuing : Bool
  taint : Bool
  queue : List txCmd
  deriving DecidableEq, Repr

/-- Modelled from the spec: `server.Peer`, reduced to the connection context it
carries (`getCtx`), the `Resp3` flag and the record of what was written. -/
structure Peer where
  Ctx : connCtx
  Resp3 : Bool
  trace : List Event
  deriving DecidableEq, Repr

/-- Modelled from the spec: the server, reduced to the Credential Store
(`m.passwords`, a map from username to password, here an association list read
with `List.lookup`) and the Database Registry (index to database). The type
`DB` of a database is a parameter. -/
structure Miniredis (DB : Type) where
  passwords : List (String × String)
  dbs : Int → DB

/-- Modelled from the spec: texts the spec does not spell out, taken as
parameters: the "NOAUTH" error of the Auth Gate, the error of AUTH in nested
context (`msgNotFromScripts`) and the queuing acknowledgment of `withTx`. -/
structure Messages where
  msgNoAuth : String
  msgNotFromScripts : String
  msgQueued : String
  deriving DecidableEq, Repr

namespace Peer

/-- Modelled from the spec: `WriteInline`, a simple-status reply. -/
def WriteInline (c : Peer) (s : String) : Peer :=
  { c with trace := c.trace ++ [Event.write (Item.inline s)] }

/-- Modelled from the spec: `WriteOK`, the simple-status acknowledgment `OK`. -/
def WriteOK (c : Peer) : Peer :=
  c.WriteInline "OK"

/-- Modelled from the spec: `WriteBulk`, a bulk-string reply. -/
def WriteBulk (c : Peer) (s : String) : Peer :=
  { c with trace := c.trace ++ [Event.write (Item.bulk s)] }

/-- Modelled from the spec: `WriteError`, an error reply. -/
def WriteError (c : Peer) (msg : String) : Peer :=
  { c with trace := c.trace ++ [Event.write (Item.error msg)] }

/-- Modelled from the spec: `Block`, the atomic block write: everything the
callback writes on its writer becomes one event of the peer. -/
def Block (c : Peer) (f : List Item → List Item) : Peer :=
  { c with trace := c.trace ++ [Event.block (f [])] }

/-- Modelled from the spec: `Close`, closing the connection. -/
def Close (c : Peer) : Peer :=
  { c with trace := c.trace ++ [Event.close] }

end Peer

/-- `server.Writer.WriteLen` inside a `Block` callback. -/
def Writer.WriteLen (w : List Item) (n : Int) : List Item := w ++ [Item.len n]

/-- `server.Writer.WriteBulk` inside a `Block` callback. -/
def Writer.WriteBulk (w : List Item) (s : String) : List Item := w ++ [Item.bulk s]

/-! ## `strconv.Atoi` -/

/-- Width of Go's `int` on the 64-bit platforms the server runs on. -/
def intSize : Nat := 64

/-- Value of a decimal digit byte, `none` for every other character. -/
def digitVal (ch : Char) : Option Nat :=
  if '0'.toNat ≤ ch.toNat ∧ ch.toNat ≤ '9'.toNat then some (ch.toNat - '0'.toNat) else none

/-- The digit loop of `strconv.ParseUint` in base 10: `n = n*10 + digit`, failing
on the first character that is not a decimal digit. -/
def parseDigits : List Char → Nat → Option Nat
  | [], n => some n
  | ch :: rest, n =>
    match digitVal ch with
    | none => none
    | some d => parseDigits rest (n * 10 + d)

/-- Go's `strconv.Atoi` (`ParseInt(s, 10, 0)`): an optional sign `+` or `-`,
then at least one decimal digit and nothing else (no underscore in base 10); the
value must fit a signed `intSize`-bit integer. `none` stands for a non-nil `err`
(syntax or range). A Go string is a sequence of bytes; a character outside ASCII
stands for bytes that are neither a sign nor a digit, and is rejected alike. -/
def Atoi (s : String) : Option Int :=
  match s.data with
  | [] => none
  | ch :: rest =>
    let neg : Bool := ch = '-'
    let ds : List Char := if ch = '-' ∨ ch = '+' then rest else ch :: rest
    if ds.isEmpty then none
    else
      match parseDigits ds 0 with
      | none => none
      | some un =>
        let cutoff : Nat := 2 ^ (intSize - 1)
        if !neg ∧ un ≥ cutoff then none
        else if neg ∧ un > cutoff then none
        else some (if neg then -(un : Int) else (un : Int))

/-! ## Helpers of the package used by the handlers -/

/-- Modelled from the spec: `errWrongNumber`, the wrong-arity message
`ERR wrong number of arguments for '<command>' command`. -/
def errWrongNumber (cmd : String) : String :=
  "ERR wrong number of arguments for '" ++ cmd ++ "' command"

/-- Modelled from the spec: `msgSyntaxError`, the AUTH syntax message. -/
def msgSyntaxError : String := "ERR syntax error"

/-- Modelled from the spec: the text of the Pub/Sub restriction error. -/
def msgPubsubRestricted : String :=
  "only (P)SUBSCRIBE / (P)UNSUBSCRIBE / PING / QUIT allowed in this context"

/-- Modelled from the spec: the allow-list of the Pub/Sub Gate (the
subscribe/unsubscribe family and PING), under the names commands are
registered with. -/
def pubsubAllowList : List String :=
  ["SUBSCRIBE", "UNSUBSCRIBE", "PSUBSCRIBE", "PUNSUBSCRIBE", "PING"]

/-- Modelled from the spec: `getCtx`, the connection context of a peer. -/
def getCtx (c : Peer) : connCtx := c.Ctx

/-- Modelled from the spec: `setDirty`, which sets the connection's taint
flag. -/
def setDirty (c : Peer) : Peer :=
  { c with Ctx := { c.Ctx with taint := true } }

/-- Modelled from the spec: `handleAuth`, the Auth Gate. Proceeds (`true`) when
the Credential Store is empty or the connection is authenticated; otherwise
writes the NOAUTH error and returns `false`. -/
def handleAuth {DB : Type} (K : Messages) (m : Miniredis DB) (c : Peer) : Bool × Peer :=
  if m.passwords.isEmpty then (true, c)
  else if (getCtx c).authenticated then (true, c)
  else (false, c.WriteError K.msgNoAuth)

/-- Modelled from the spec: `checkPubsub`, the Pub/Sub Gate. When the
subscriber is set and the command is not on the allow-list it writes the
restriction error and returns `true` (the caller aborts); otherwise `false`. -/
def checkPubsub (c : Peer) (cmd : String) : Bool × Peer :=
  if (getCtx c).subscriber.isSome ∧ cmd ∉ pubsubAllowList then
    (true, c.WriteError msgPubsubRestricted)
  else (false, c)

/-- Modelled from the spec: `swapDB`, which exchanges what the registry holds
at the two indices and leaves every other index alone. -/
def swapDB {DB : Type} (m : Miniredis DB) (i j : Int) : Miniredis DB :=
  { m with dbs := fun k => if k = i then m.dbs j else if k = j then m.dbs i else m.dbs k }

/-! ## The closures passed to `withTx` -/

/-- Body of the closure of `cmdPing` (source lines 48-54). -/
def cmdPing_cb {DB : Type} (payload : String) (m : Miniredis DB) (c : Peer) :
    Miniredis DB × Peer :=
  if payload = "" then (m, c.WriteInline "PONG")
  else (m, c.WriteBulk payload)

/-- Body of the closure of `cmdAuth` (source lines 82-99). -/
def cmdAuth_cb {DB : Type} (username pw : String) (m : Miniredis DB) (c : Peer) :
    Miniredis DB × Peer :=
  if m.passwords.length = 0 ∧ username = "default" then
    (m, c.WriteError "ERR AUTH <password> called without any password configured for the default user. Are you sure your configuration is correct?")
  else
    match m.passwords.lookup username with
    | none => (m, c.WriteError "WRONGPASS invalid username-password pair")
    | some setPW =>
      if setPW ≠ pw then (m, c.WriteError "WRONGPASS invalid username-password pair")
      else (m, Peer.WriteOK { c with Ctx := { c.Ctx with authenticated := true } })

/-- Body of the closure of `cmdEcho` (source lines 116-119). -/
def cmdEcho_cb {DB : Type} (arg0 : String) (m : Miniredis DB) (c : Peer) :
    Miniredis DB × Peer :=
  (m, c.WriteBulk arg0)

/-- Body of the closure of `cmdSelect` (source lines 136-151). -/
def cmdSelect_cb {DB : Type} (arg0 : String) (m : Miniredis DB) (c : Peer) :
    Miniredis DB × Peer :=
  match Atoi arg0 with
  | none => (m, setDirty (c.WriteError "ERR invalid DB index"))
  | some id =>
    if id < 0 then (m, setDirty (c.WriteError "ERR DB index is out of range"))
    else (m, Peer.WriteOK { c with Ctx := { c.Ctx with selectedDB := id } })

/-- Body of the closure of `cmdSwapdb` (source lines 165-187). -/
def cmdSwapdb_cb {DB : Type} (arg0 arg1 : String) (m : Miniredis DB) (c : Peer) :
    Miniredis DB × Peer :=
  match Atoi arg0 with
  | none => (m, setDirty (c.WriteError "ERR invalid first DB index"))
  | some id1 =>
    match Atoi arg1 with
    | none => (m, setDirty (c.WriteError "ERR invalid second DB index"))
    | some id2 =>
      if id1 < 0 ∨ id2 < 0 then (m, setDirty (c.WriteError "ERR DB index is out of range"))
      else (swapDB m id1 id2, c.WriteOK)

/-- Running a closure: `cb(c, ctx)`. -/
def txCmd.run {DB : Type} (cb : txCmd) (m : Miniredis DB) (c : Peer) : Miniredis DB × Peer :=
  match cb with
  | txCmd.ping payload => cmdPing_cb payload m c
  | txCmd.auth username pw => cmdAuth_cb username pw m c
  | txCmd.echo arg0 => cmdEcho_cb arg0 m c
  | txCmd.select arg0 => cmdSelect_cb arg0 m c
  | txCmd.swapdb arg0 arg1 => cmdSwapdb_cb arg0 arg1 m c

/-- Modelled from the spec: `withTx`, the Transaction Wrapper. In the Immediate
state the effect runs now against the live state; in the Queuing state it is
appended to the pending queue and the queuing acknowledgment is written. -/
def withTx {DB : Type} (K : Messages) (m : Miniredis DB) (c : Peer) (cb : txCmd) :
    Miniredis DB × Peer :=
  if (getCtx c).queuing then
    (m, Peer.WriteInline { c with Ctx := { c.Ctx with queue := c.Ctx.queue ++ [cb] } } K.msgQueued)
  else cb.run m c

/-! ## The handlers of `cmd_connection.go` -/

/-- PING (source lines 22-55). -/
def cmdPing {DB : Type} (K : Messages) (m : Miniredis DB) (c : Peer) (cmd : String)
    (args : List String) : Miniredis DB × Peer :=
  match handleAuth K m c with
  | (false, c) => (m, c)
  | (true, c) =>
    if args.length > 1 then (m, (setDirty c).WriteError (errWrongNumber cmd))
    else
      let payload : String := match args with
        | [] => ""
        | a :: _ => a
      if (getCtx c).subscriber.isSome then
        (m, c.Block fun w => Writer.WriteBulk (Writer.WriteBulk (Writer.WriteLen w 2) "pong") payload)
      else withTx K m c (txCmd.ping payload)

/-- AUTH (source lines 58-100). -/
def cmdAuth {DB : Type} (K : Messages) (m : Miniredis DB) (c : Peer) (cmd : String)
    (args : List String) : Miniredis DB × Peer :=
  if args.length < 1 then (m, (setDirty c).WriteError (errWrongNumber cmd))
  else if args.length > 2 then (m, c.WriteError msgSyntaxError)
  else
    match checkPubsub c cmd with
    | (true, c) => (m, c)
    | (false, c) =>
      if (getCtx c).nested then (m, c.WriteError K.msgNotFromScripts)
      else
        match args with
        | [a0, a1] => withTx K m c (txCmd.auth a0 a1)
        | a0 :: _ => withTx K m c (txCmd.auth "default" a0)
        | [] => (m, c)

/-- ECHO (source lines 103-120). -/
def cmdEcho {DB : Type} (K : Messages) (m : Miniredis DB) (c : Peer) (cmd : String)
    (args : List String) : Miniredis DB × Peer :=
  match args with
  | [a0] =>
    match handleAuth K m c with
    | (false, c) => (m, c)
    | (true, c) =>
      match checkPubsub c cmd with
      | (true, c) => (m, c)
      | (false, c) => withTx K m c (txCmd.echo a0)
  | _ => (m, (setDirty c).WriteError (errWrongNumber cmd))

/-- SELECT (source lines 123-152). -/
def cmdSelect {DB : Type} (K : Messages) (m : Miniredis DB) (c : Peer) (cmd : String)
    (args : List String) : Miniredis DB × Peer :=
  match args with
  | [a0] =>
    match handleAuth K m c with
    | (false, c) => (m, c)
    | (true, c) =>
      match checkPubsub c cmd with
      | (true, c) => (m, c)
      | (false, c) => withTx K m c (txCmd.select a0)
  | _ => (m, (setDirty c).WriteError (errWrongNumber cmd))

/-- SWAPDB (source lines 155-188). -/
def cmdSwapdb {DB : Type} (K : Messages) (m : Miniredis DB) (c : Peer) (cmd : String)
    (args : List String) : Miniredis DB × Peer :=
  match args with
  | [a0, a1] =>
    match handleAuth K m c with
    | (false, c) => (m, c)
    | (true, c) => withTx K m c (txCmd.swapdb a0 a1)
  | _ => (m, (setDirty c).WriteError (errWrongNumber cmd))

/-- QUIT (source lines 191-195): not transactionfied, accepts any arguments. -/
def cmdQuit {DB : Type} (m : Miniredis DB) (c : Peer) (_cmd : String)
    (_args : List String) : Miniredis DB × Peer :=
  (m, c.WriteOK.Close)

/-- RESP3 (source lines 198-201). -/
def cmdResp3 {DB : Type} (m : Miniredis DB) (c : Peer) (_cmd : String)
    (_args : List String) : Miniredis DB × Peer :=
  (m, Peer.WriteOK { c with Resp3 := true })

/-- The registrations of `commandsConnection` (source lines 11-19): the
handler registered under a command name. -/
def commandsConnection {DB : Type} (K : Messages) (name : String) :
    Option (Miniredis DB → Peer → String → List String → Miniredis DB × Peer) :=
  if name = "AUTH" then some (cmdAuth K)
  else if name = "ECHO" then some (cmdEcho K)
  else if name = "PING" then some (cmdPing K)
  else if name = "SELECT" then some (cmdSelect K)
  else if name = "SWAPDB" then some (cmdSwapdb K)
  else if name = "QUIT" then some cmdQuit
  else if name = "RESP3" then some cmdResp3
  else none

/-- The connection passes the Auth Gate: the Credential Store is empty or the
connection is authenticated. -/
def passesAuth {DB : Type} (m : Miniredis DB) (c : Peer) : Prop :=
  m.passwords = [] ∨ c.Ctx.authenticated = true

instance {DB : Type} (m : Miniredis DB) (c : Peer) : Decidable (passesAuth m c) := by
  unfold passesAuth; infer_instance

/-! ## Sample values used to evaluate the handlers -/

/-- Sample message texts. -/
def sampleMessages : Messages :=
  { msgNoAuth := "NOAUTH Authentication required."
    msgNotFromScripts := "ERR This Redis command is not allowed from script"
    msgQueued := "QUEUED" }

/-- A fresh connection: unauthenticated, database 0, not queuing. -/
def freshPeer : Peer :=
  { Ctx := { selectedDB := 0, authenticated := false, nested := false, subscriber := none,
             queuing := false, taint := false, queue := [] }
    Resp3 := false
    trace := [] }

/-- A connection that is subscribed and queuing. -/
def subscribedQueuingPeer : Peer :=
  { freshPeer with Ctx := { freshPeer.Ctx with subscriber := some {}, queuing := true } }

/-- A server without passwords whose database `i` holds the number `i`. -/
def sampleServer : Miniredis Int :=
  { passwords := [], dbs := fun i => i }

/-- A server with one user, `default`, whose password is `secret`. -/
def securedServer : Miniredis Int :=
  { passwords := [("default", "secret")], dbs := fun i => i }

/-- A connection in the Queuing state, with nothing queued yet. -/
def queuingPeer : Peer :=
  { freshPeer with Ctx := { freshPeer.Ctx with queuing := true } }

/-- A nested (embedded-execution), authenticated connection in the Queuing
state. -/
def nestedQueuingPeer : Peer :=
  { freshPeer with
      Ctx := { freshPeer.Ctx with nested := true, queuing := true, authenticated := true } }

/-- A nested (embedded-execution) connection. -/
def nestedPeer : Peer :=
  { freshPeer with Ctx := { freshPeer.Ctx with nested := true } }

/-- A subscribed connection that is authenticated, on database 0. -/
def subscribedAuthenticatedPeer : Peer :=
  { freshPeer with Ctx := { freshPeer.Ctx with subscriber := some {}, authenticated := true } }

/-- An authenticated connection. -/
def authenticatedPeer : Peer :=
  { freshPeer with Ctx := { freshPeer.Ctx with authenticated := true } }

/-! ## Replies -/

/-- One complete top-level reply: a status, a bulk string or an error written
on the peer, or one block holding a 2-element array of bulk strings. A bare
array header and `Close` are not replies. -/
def Event.isReply : Event → Bool
  | Event.write (Item.inline _) => true
  | Event.write (Item.bulk _) => true
  | Event.write (Item.error _) => true
  | Event.write (Item.len _) => false
  | Event.block [Item.len 2, Item.bulk _, Item.bulk _] => true
  | Event.block _ => false
  | Event.close => false

/-- What one handler call may do to a connection, from `c` to `r`: it writes
exactly one reply `e`, followed by nothing or by the closing of the connection;
and it leaves authenticated alone, unless it is AUTH (`isAuth`), in which case
it may also set authenticated to true while replying OK. -/
def handlerOutcome (isAuth : Bool) (c r : Peer) : Prop :=
  ∃ (e : Event) (rest : List Event),
    e.isReply = true ∧ r.trace = c.trace ++ e :: rest ∧ (rest = [] ∨ rest = [Event.close]) ∧
    (r.Ctx.authenticated = c.Ctx.authenticated ∨
      (isAuth = true ∧ r.Ctx.authenticated = true ∧
        e = Event.write (Item.inline "OK") ∧ rest = []))

/-! ## Gates and wrapper on the paths the handlers take -/

theorem handleAuth_of_passesAuth {DB : Type} (K : Messages) (m : Miniredis DB) (c : Peer)
    (h : passesAuth m c) : handleAuth K m c = (true, c) := by
  unfold handleAuth getCtx
  rcases h with h | h
  · simp [h]
  · simp [h]

theorem handleAuth_of_not_passesAuth {DB : Type} (K : Messages) (m : Miniredis DB) (c : Peer)
    (h : ¬ passesAuth m c) : handleAuth K m c = (false, c.WriteError K.msgNoAuth) := by
  unfold passesAuth at h
  unfold handleAuth getCtx
  have h1 : m.passwords ≠ [] := fun e => h (Or.inl e)
  have h2 : c.Ctx.authenticated = false := by
    cases hc : c.Ctx.authenticated
    · rfl
    · exact absurd (Or.inr hc) h
  simp [h1, h2, List.isEmpty_iff]

theorem checkPubsub_of_not_subscribed (c : Peer) (cmd : String)
    (h : c.Ctx.subscriber = none) : checkPubsub c cmd = (false, c) := by
  simp [checkPubsub, getCtx, h]

theorem withTx_immediate {DB : Type} (K : Messages) (m : Miniredis DB) (c : Peer) (cb : txCmd)
    (h : c.Ctx.queuing = false) : withTx K m c cb = cb.run m c := by
  simp [withTx, getCtx, h]

theorem withTx_queuing {DB : Type} (K : Messages) (m : Miniredis DB) (c : Peer) (cb : txCmd)
    (h : c.Ctx.queuing = true) :
    withTx K m c cb =
      (m, { c with
            Ctx := { c.Ctx with queue := c.Ctx.queue ++ [cb] }
            trace := c.trace ++ [Event.write (Item.inline K.msgQueued)] }) := by
  simp [withTx, getCtx, h, Peer.WriteInline]

/-! ## PING -/

/-- C1: on a connection that passes the Auth Gate, has no subscription and is
not queuing, PING without argument replies the simple status PONG and PING with
a non-empty argument `x` replies the bulk string `x`; PING with the empty
string as its argument replies the simple status PONG, not the bulk string. -/
theorem cmdPing_immediate {DB : Type} (K : Messages) (m : Miniredis DB) (c : Peer)
    (cmd : String) (hauth : passesAuth m c) (hsub : c.Ctx.subscriber = none)
    (hq : c.Ctx.queuing = false) :
    cmdPing K m c cmd [] =
        (m, { c with trace := c.trace ++ [Event.write (Item.inline "PONG")] }) ∧
    (∀ x : String, x ≠ "" →
      cmdPing K m c cmd [x] = (m, { c with trace := c.trace ++ [Event.write (Item.bulk x)] })) ∧
    cmdPing K m c cmd [""] =
        (m, { c with trace := c.trace ++ [Event.write (Item.inline "PONG")] }) ∧
    (cmdPing K m c cmd [""]).2.trace ≠ c.trace ++ [Event.write (Item.bulk "")] := by
  have e : ∀ args : List String, args.length ≤ 1 →
      cmdPing K m c cmd args = cmdPing_cb (match args with | [] => "" | a :: _ => a) m c := by
    intro args hlen
    unfold cmdPing
    rw [handleAuth_of_passesAuth K m c hauth]
    have hn : ¬ args.length > 1 := by omega
    simp only [hn, if_false, getCtx, hsub, Option.isSome_none, Bool.false_eq_true]
    exact withTx_immediate K m c _ hq
  refine ⟨?_, ?_, ?_, ?_⟩
  · rw [e [] (by simp)]; simp [cmdPing_cb, Peer.WriteInline]
  · intro x hx
    rw [e [x] (by simp)]; simp [cmdPing_cb, Peer.WriteBulk, hx]
  · rw [e [""] (by simp)]; simp [cmdPing_cb, Peer.WriteInline]
  · rw [e [""] (by simp)]; simp [cmdPing_cb, Peer.WriteInline]

/-- Evaluation of `cmdPing_immediate` on a fresh connection of a server without
passwords. -/
theorem cmdPing_immediate_witness :
    passesAuth sampleServer freshPeer ∧ freshPeer.Ctx.subscriber = none ∧
    freshPeer.Ctx.queuing = false ∧
    (cmdPing sampleMessages sampleServer freshPeer "PING" [""]).2.trace
      = [Event.write (Item.inline "PONG")] ∧
    (cmdPing sampleMessages sampleServer freshPeer "PING" [""]).2.trace
      ≠ [Event.write (Item.bulk "")] :=
  have h := cmdPing_immediate sampleMessages sampleServer freshPeer "PING"
    (by decide) rfl rfl
  ⟨by decide, rfl, rfl, by rw [h.2.2.1]; rfl, h.2.2.2⟩

/-- C2: on a connection whose subscriber is set and that passes the Auth Gate,
PING with zero or one argument writes one atomic block holding the 2-element
array of the bulk strings `pong` and the payload (the argument, or the empty
string without argument), whether the connection is queuing or not; the server
and the connection context (pending queue, selectedDB, authenticated, taint)
are unchanged. -/
theorem cmdPing_subscribed {DB : Type} (K : Messages) (m : Miniredis DB) (c : Peer)
    (cmd : String) (args : List String) (hauth : passesAuth m c)
    (hsub : c.Ctx.subscriber.isSome = true) (hargs : args.length ≤ 1) :
    cmdPing K m c cmd args =
        (m, { c with trace := c.trace ++
                [Event.block [Item.len 2, Item.bulk "pong", Item.bulk (args.headD "")]] }) ∧
    (cmdPing K m c cmd args).2.Ctx.queue = c.Ctx.queue ∧
    (cmdPing K m c cmd args).2.Ctx.selectedDB = c.Ctx.selectedDB ∧
    (cmdPing K m c cmd args).2.Ctx.authenticated = c.Ctx.authenticated ∧
    (cmdPing K m c cmd args).2.Ctx.taint = c.Ctx.taint ∧
    (cmdPing K m c cmd args).2.Ctx.queuing = c.Ctx.queuing := by
  have e : cmdPing K m c cmd args =
      (m, { c with trace := c.trace ++
              [Event.block [Item.len 2, Item.bulk "pong", Item.bulk (args.headD "")]] }) := by
    unfold cmdPing
    rw [handleAuth_of_passesAuth K m c hauth]
    have hn : ¬ args.length > 1 := by omega
    simp only [hn, if_false, getCtx, hsub, if_true]
    match args, hargs with
    | [], _ => simp [Peer.Block, Writer.WriteBulk, Writer.WriteLen]
    | [a], _ => simp [Peer.Block, Writer.WriteBulk, Writer.WriteLen]
  rw [e]
  exact ⟨rfl, rfl, rfl, rfl, rfl, rfl⟩

/-- Evaluation of `cmdPing_subscribed` on a subscribed, queuing connection. -/
theorem cmdPing_subscribed_witness :
    passesAuth sampleServer subscribedQueuingPeer ∧
    subscribedQueuingPeer.Ctx.subscriber.isSome = true ∧
    subscribedQueuingPeer.Ctx.queuing = true ∧
    (cmdPing sampleMessages sampleServer subscribedQueuingPeer "PING" ["hi"]).2.trace
      = [Event.block [Item.len 2, Item.bulk "pong", Item.bulk "hi"]] :=
  ⟨by decide, rfl, rfl, congrArg (fun r => r.2.trace)
    (cmdPing_subscribed sampleMessages sampleServer subscribedQueuingPeer
      "PING" ["hi"] (by decide) rfl (by decide)).1⟩

/-! ## AUTH -/

/-- With one or two arguments, on a connection that is neither subscribed nor
nested nor queuing, `cmdAuth` runs its closure on the resolved username and
password. -/
theorem cmdAuth_runs_closure {DB : Type} (K : Messages) (m : Miniredis DB) (c : Peer)
    (cmd : String) (args : List String) (user pw : String)
    (hargs : (args = [pw] ∧ user = "default") ∨ args = [user, pw])
    (hsub : c.Ctx.subscriber = none) (hn : c.Ctx.nested = false)
    (hq : c.Ctx.queuing = false) :
    cmdAuth K m c cmd args = cmdAuth_cb user pw m c := by
  rcases hargs with ⟨rfl, rfl⟩ | rfl
  · unfold cmdAuth
    rw [checkPubsub_of_not_subscribed c cmd hsub]
    simp only [List.length_singleton, Nat.lt_irrefl, if_false, getCtx, hn, Bool.false_eq_true,
      show ¬ (1 > 2) by decide]
    exact withTx_immediate K m c _ hq
  · unfold cmdAuth
    rw [checkPubsub_of_not_subscribed c cmd hsub]
    simp only [List.length_cons, List.length_nil, getCtx, hn, Bool.false_eq_true, if_false,
      show ¬ (0 + 1 + 1 < 1) by decide, show ¬ (0 + 1 + 1 > 2) by decide]
    exact withTx_immediate K m c _ hq

/-- C3: with an empty Credential Store, AUTH with the single argument `pw` on a
connection that is neither subscribed, nested nor queuing replies exactly the
"no password configured" error and changes nothing else; the authenticated flag
keeps its value, so a flag that was false remains false. -/
theorem cmdAuth_no_password_configured {DB : Type} (K : Messages) (m : Miniredis DB)
    (c : Peer) (cmd : String) (pw : String) (hstore : m.passwords = [])
    (hsub : c.Ctx.subscriber = none) (hn : c.Ctx.nested = false)
    (hq : c.Ctx.queuing = false) :
    cmdAuth K m c cmd [pw] =
      (m, { c with trace := c.trace ++ [Event.write (Item.error
        "ERR AUTH <password> called without any password configured for the default user. Are you sure your configuration is correct?")] }) ∧
    (cmdAuth K m c cmd [pw]).2.Ctx.authenticated = c.Ctx.authenticated ∧
    (c.Ctx.authenticated = false → (cmdAuth K m c cmd [pw]).2.Ctx.authenticated = false) := by
  have e := cmdAuth_runs_closure K m c cmd [pw] "default" pw (Or.inl ⟨rfl, rfl⟩) hsub hn hq
  have e2 : cmdAuth K m c cmd [pw] =
      (m, { c with trace := c.trace ++ [Event.write (Item.error
        "ERR AUTH <password> called without any password configured for the default user. Are you sure your configuration is correct?")] }) := by
    rw [e]; simp [cmdAuth_cb, hstore, Peer.WriteError]
  rw [e2]
  exact ⟨rfl, rfl, fun h => h⟩

/-- Evaluation of `cmdAuth_no_password_configured` on a fresh connection. -/
theorem cmdAuth_no_password_configured_witness :
    sampleServer.passwords = [] ∧ freshPeer.Ctx.subscriber = none ∧
    freshPeer.Ctx.nested = false ∧ freshPeer.Ctx.queuing = false ∧
    (cmdAuth sampleMessages sampleServer freshPeer "AUTH" ["hunter2"]).2.trace =
      [Event.write (Item.error
        "ERR AUTH <password> called without any password configured for the default user. Are you sure your configuration is correct?")] ∧
    (cmdAuth sampleMessages sampleServer freshPeer "AUTH" ["hunter2"]).2.Ctx.authenticated
      = false :=
  have h := cmdAuth_no_password_configured sampleMessages sampleServer freshPeer "AUTH"
    "hunter2" rfl rfl rfl rfl
  ⟨rfl, rfl, rfl, rfl, by rw [h.1]; rfl, h.2.2 rfl⟩

/-- C4, as stated, fails: with an empty Credential Store the username `default`
is not associated with the password `x`, yet AUTH `default` `x` replies the
"no password configured" error and not the WRONGPASS message. -/
theorem cmdAuth_wrongpass_counterexample :
    sampleServer.passwords.lookup "default" ≠ some "x" ∧
    freshPeer.Ctx.subscriber = none ∧ freshPeer.Ctx.nested = false ∧
    freshPeer.Ctx.queuing = false ∧
    (cmdAuth sampleMessages sampleServer freshPeer "AUTH" ["default", "x"]).2.trace ≠
      freshPeer.trace ++ [Event.write (Item.error "WRONGPASS invalid username-password pair")] ∧
    (cmdAuth sampleMessages sampleServer freshPeer "AUTH" ["default", "x"]).2.trace =
      freshPeer.trace ++ [Event.write (Item.error
        "ERR AUTH <password> called without any password configured for the default user. Are you sure your configuration is correct?")] := by
  decide

/-- C4, amended: when the Credential Store is non-empty or the username is not
`default`, AUTH `user` `wrongpw` with a password the store does not associate
with `user` replies "WRONGPASS invalid username-password pair" and changes
nothing else, on a connection that is neither subscribed, nested nor queuing.
The reply is the same whether `user` is a key of the store or not. -/
theorem cmdAuth_wrongpass_uniform {DB : Type} (K : Messages) (m : Miniredis DB)
    (c : Peer) (cmd : String) (user wrongpw : String)
    (hguard : m.passwords ≠ [] ∨ user ≠ "default")
    (hwrong : m.passwords.lookup user ≠ some wrongpw)
    (hsub : c.Ctx.subscriber = none) (hn : c.Ctx.nested = false)
    (hq : c.Ctx.queuing = false) :
    cmdAuth K m c cmd [user, wrongpw] =
      (m, { c with trace := c.trace ++
              [Event.write (Item.error "WRONGPASS invalid username-password pair")] }) := by
  rw [cmdAuth_runs_closure K m c cmd [user, wrongpw] user wrongpw (Or.inr rfl) hsub hn hq]
  unfold cmdAuth_cb
  have hg : ¬ (m.passwords.length = 0 ∧ user = "default") := by
    rintro ⟨h1, h2⟩
    rcases hguard with h | h
    · exact h (List.length_eq_zero.mp h1)
    · exact h h2
  rw [if_neg hg]
  cases hl : m.passwords.lookup user with
  | none => simp [Peer.WriteError]
  | some setPW =>
    have hne : setPW ≠ wrongpw := by
      intro h; rw [hl, h] at hwrong; exact hwrong rfl
    simp [hne, Peer.WriteError]

/-- Evaluation of `cmdAuth_wrongpass_uniform` for an existing user with a wrong
password. -/
theorem cmdAuth_wrongpass_uniform_witness :
    (securedServer.passwords ≠ [] ∨ "default" ≠ "default") ∧
    securedServer.passwords.lookup "default" ≠ some "guess" ∧
    freshPeer.Ctx.subscriber = none ∧ freshPeer.Ctx.nested = false ∧
    freshPeer.Ctx.queuing = false ∧
    cmdAuth sampleMessages securedServer freshPeer "AUTH" ["default", "guess"] =
      (securedServer, { freshPeer with trace := freshPeer.trace ++
              [Event.write (Item.error "WRONGPASS invalid username-password pair")] }) :=
  ⟨by decide, by decide, rfl, rfl, rfl,
    cmdAuth_wrongpass_uniform sampleMessages securedServer freshPeer "AUTH" "default" "guess"
      (by decide) (by decide) rfl rfl rfl⟩

/-- C5: for AUTH with one argument (`pw`, the username being `default`) or two
arguments (`user`, `pw`) on a connection that is neither subscribed, nested nor
queuing: when the store maps the username to exactly `pw` the handler sets
authenticated to true and replies OK; in every other case it writes one error
reply and leaves the connection context as it was. Hence the reply is OK if and
only if the store maps the username to `pw`. -/
theorem cmdAuth_ok_iff_store_match {DB : Type} (K : Messages) (m : Miniredis DB)
    (c : Peer) (cmd : String) (args : List String) (user pw : String)
    (hargs : (args = [pw] ∧ user = "default") ∨ args = [user, pw])
    (hsub : c.Ctx.subscriber = none) (hn : c.Ctx.nested = false)
    (hq : c.Ctx.queuing = false) :
    (m.passwords.lookup user = some pw →
      cmdAuth K m c cmd args =
        (m, { c with Ctx := { c.Ctx with authenticated := true }
                     trace := c.trace ++ [Event.write (Item.inline "OK")] })) ∧
    (m.passwords.lookup user ≠ some pw →
      ∃ msg : String, cmdAuth K m c cmd args =
        (m, { c with trace := c.trace ++ [Event.write (Item.error msg)] })) ∧
    ((cmdAuth K m c cmd args).2.trace = c.trace ++ [Event.write (Item.inline "OK")] ↔
      m.passwords.lookup user = some pw) := by
  rw [cmdAuth_runs_closure K m c cmd args user pw hargs hsub hn hq]
  have hmatch : m.passwords.lookup user = some pw →
      cmdAuth_cb user pw m c =
        (m, { c with Ctx := { c.Ctx with authenticated := true }
                     trace := c.trace ++ [Event.write (Item.inline "OK")] }) := by
    intro h
    have hne : m.passwords ≠ [] := by
      intro h0; rw [h0] at h; simp [List.lookup] at h
    have hg : ¬ (m.passwords.length = 0 ∧ user = "default") :=
      fun hh => hne (List.length_eq_zero.mp hh.1)
    unfold cmdAuth_cb
    rw [if_neg hg, h]
    simp [Peer.WriteOK, Peer.WriteInline]
  have hmiss : m.passwords.lookup user ≠ some pw →
      ∃ msg : String, cmdAuth_cb user pw m c =
        (m, { c with trace := c.trace ++ [Event.write (Item.error msg)] }) := by
    intro h
    unfold cmdAuth_cb
    by_cases hg : m.passwords.length = 0 ∧ user = "default"
    · rw [if_pos hg]; exact ⟨_, rfl⟩
    · rw [if_neg hg]
      cases hl : m.passwords.lookup user with
      | none => exact ⟨_, rfl⟩
      | some setPW =>
        have hne : setPW ≠ pw := by
          intro h2; rw [hl, h2] at h; exact h rfl
        simp only [hne, ne_eq, not_false_eq_true, if_true]
        exact ⟨_, rfl⟩
  refine ⟨hmatch, hmiss, ?_, ?_⟩
  · intro htr
    by_contra hno
    obtain ⟨msg, he⟩ := hmiss hno
    rw [he] at htr
    simp at htr
  · intro h
    rw [hmatch h]

/-- Evaluation of `cmdAuth_ok_iff_store_match` with the right password. -/
theorem cmdAuth_ok_iff_store_match_witness :
    freshPeer.Ctx.subscriber = none ∧ freshPeer.Ctx.nested = false ∧
    freshPeer.Ctx.queuing = false ∧
    securedServer.passwords.lookup "default" = some "secret" ∧
    cmdAuth sampleMessages securedServer freshPeer "AUTH" ["secret"] =
      (securedServer, { freshPeer with
          Ctx := { freshPeer.Ctx with authenticated := true }
          trace := freshPeer.trace ++ [Event.write (Item.inline "OK")] }) :=
  ⟨rfl, rfl, rfl, by decide,
    (cmdAuth_ok_iff_store_match sampleMessages securedServer freshPeer "AUTH" ["secret"]
      "default" "secret" (Or.inl ⟨rfl, rfl⟩) rfl rfl rfl).1 (by decide)⟩

/-! ## SELECT -/

/-- With one argument, on a connection that passes the Auth Gate and is neither
subscribed nor queuing, `cmdSelect` runs its closure. -/
theorem cmdSelect_runs_closure {DB : Type} (K : Messages) (m : Miniredis DB) (c : Peer)
    (cmd : String) (a : String) (hauth : passesAuth m c)
    (hsub : c.Ctx.subscriber = none) (hq : c.Ctx.queuing = false) :
    cmdSelect K m c cmd [a] = cmdSelect_cb a m c := by
  unfold cmdSelect
  simp only [handleAuth_of_passesAuth K m c hauth, checkPubsub_of_not_subscribed c cmd hsub]
  exact withTx_immediate K m c _ hq

/-- The closure of `cmdSelect` on an argument that parses to a non-negative
integer. -/
theorem cmdSelect_cb_of_valid {DB : Type} (m : Miniredis DB) (c : Peer) (a : String)
    (n : Int) (hparse : Atoi a = some n) (hn : 0 ≤ n) :
    cmdSelect_cb a m c =
      (m, { c with Ctx := { c.Ctx with selectedDB := n }
                   trace := c.trace ++ [Event.write (Item.inline "OK")] }) := by
  have hn2 : ¬ n < 0 := by omega
  simp [cmdSelect_cb, hparse, hn2, Peer.WriteOK, Peer.WriteInline]

/-- C6: on a connection that passes the Auth Gate and is neither subscribed nor
queuing, SELECT with an argument `strconv.Atoi` rejects replies
"ERR invalid DB index", and SELECT with an argument that parses to a negative
integer replies "ERR DB index is out of range"; both set the taint flag and
leave selectedDB, the rest of the context and the server unchanged. -/
theorem cmdSelect_invalid_index {DB : Type} (K : Messages) (m : Miniredis DB) (c : Peer)
    (cmd : String) (a : String) (hauth : passesAuth m c)
    (hsub : c.Ctx.subscriber = none) (hq : c.Ctx.queuing = false) :
    (Atoi a = none →
      cmdSelect K m c cmd [a] =
        (m, { c with Ctx := { c.Ctx with taint := true }
                     trace := c.trace ++ [Event.write (Item.error "ERR invalid DB index")] })) ∧
    (∀ n : Int, Atoi a = some n → n < 0 →
      cmdSelect K m c cmd [a] =
        (m, { c with Ctx := { c.Ctx with taint := true }
                     trace := c.trace ++
                       [Event.write (Item.error "ERR DB index is out of range")] })) ∧
    ((Atoi a = none ∨ ∃ n : Int, Atoi a = some n ∧ n < 0) →
      (cmdSelect K m c cmd [a]).2.Ctx.selectedDB = c.Ctx.selectedDB ∧
      (cmdSelect K m c cmd [a]).2.Ctx.taint = true) := by
  rw [cmdSelect_runs_closure K m c cmd a hauth hsub hq]
  have h1 : Atoi a = none →
      cmdSelect_cb a m c =
        (m, { c with Ctx := { c.Ctx with taint := true }
                     trace := c.trace ++ [Event.write (Item.error "ERR invalid DB index")] }) := by
    intro h
    simp [cmdSelect_cb, h, setDirty, Peer.WriteError]
  have h2 : ∀ n : Int, Atoi a = some n → n < 0 →
      cmdSelect_cb a m c =
        (m, { c with Ctx := { c.Ctx with taint := true }
                     trace := c.trace ++
                       [Event.write (Item.error "ERR DB index is out of range")] }) := by
    intro n h hn
    simp [cmdSelect_cb, h, hn, setDirty, Peer.WriteError]
  refine ⟨h1, h2, ?_⟩
  rintro (h | ⟨n, h, hn⟩)
  · rw [h1 h]; exact ⟨rfl, rfl⟩
  · rw [h2 n h hn]; exact ⟨rfl, rfl⟩

/-- Evaluation of `cmdSelect_invalid_index` at SELECT -1. -/
theorem cmdSelect_invalid_index_witness :
    passesAuth sampleServer freshPeer ∧ freshPeer.Ctx.subscriber = none ∧
    freshPeer.Ctx.queuing = false ∧ Atoi "-1" = some (-1) ∧
    cmdSelect sampleMessages sampleServer freshPeer "SELECT" ["-1"] =
      (sampleServer, { freshPeer with
          Ctx := { freshPeer.Ctx with taint := true }
          trace := freshPeer.trace ++
            [Event.write (Item.error "ERR DB index is out of range")] }) :=
  ⟨by decide, rfl, rfl, by decide,
    (cmdSelect_invalid_index sampleMessages sampleServer freshPeer "SELECT" "-1"
      (by decide) rfl rfl).2.1 (-1) (by decide) (by decide)⟩

/-- C7: on a connection that passes the Auth Gate and is neither subscribed nor
queuing, SELECT with an argument that `strconv.Atoi` parses to `n ≥ 0` sets
selectedDB to `n` and replies OK; the taint flag, the authenticated flag, the
rest of the context and the server are unchanged. -/
theorem cmdSelect_valid_index {DB : Type} (K : Messages) (m : Miniredis DB) (c : Peer)
    (cmd : String) (a : String) (n : Int) (hauth : passesAuth m c)
    (hsub : c.Ctx.subscriber = none) (hq : c.Ctx.queuing = false)
    (hparse : Atoi a = some n) (hn : 0 ≤ n) :
    cmdSelect K m c cmd [a] =
      (m, { c with Ctx := { c.Ctx with selectedDB := n }
                   trace := c.trace ++ [Event.write (Item.inline "OK")] }) ∧
    (cmdSelect K m c cmd [a]).2.Ctx.selectedDB = n ∧
    (cmdSelect K m c cmd [a]).2.Ctx.taint = c.Ctx.taint ∧
    (cmdSelect K m c cmd [a]).2.Ctx.authenticated = c.Ctx.authenticated := by
  rw [cmdSelect_runs_closure K m c cmd a hauth hsub hq]
  rw [cmdSelect_cb_of_valid m c a n hparse hn]
  exact ⟨rfl, rfl, rfl, rfl⟩

/-- Evaluation of `cmdSelect_valid_index` at SELECT 3. -/
theorem cmdSelect_valid_index_witness :
    passesAuth sampleServer freshPeer ∧ freshPeer.Ctx.subscriber = none ∧
    freshPeer.Ctx.queuing = false ∧ Atoi "3" = some 3 ∧
    (cmdSelect sampleMessages sampleServer freshPeer "SELECT" ["3"]).2.Ctx.selectedDB = 3 ∧
    (cmdSelect sampleMessages sampleServer freshPeer "SELECT" ["3"]).2.trace =
      [Event.write (Item.inline "OK")] :=
  have h := cmdSelect_valid_index sampleMessages sampleServer freshPeer "SELECT" "3" 3
    (by decide) rfl rfl (by decide) (by decide)
  ⟨by decide, rfl, rfl, by decide, h.2.1, by rw [h.1]; rfl⟩

/-! ## SWAPDB -/

/-- With two arguments, on a connection that passes the Auth Gate and is not
queuing, `cmdSwapdb` runs its closure. -/
theorem cmdSwapdb_runs_closure {DB : Type} (K : Messages) (m : Miniredis DB) (c : Peer)
    (cmd : String) (a b : String) (hauth : passesAuth m c) (hq : c.Ctx.queuing = false) :
    cmdSwapdb K m c cmd [a, b] = cmdSwapdb_cb a b m c := by
  unfold cmdSwapdb
  simp only [handleAuth_of_passesAuth K m c hauth]
  exact withTx_immediate K m c _ hq

/-- The closure of `cmdSwapdb` on two arguments that parse to non-negative
integers. -/
theorem cmdSwapdb_cb_of_valid {DB : Type} (m : Miniredis DB) (c : Peer) (a b : String)
    (i j : Int) (ha : Atoi a = some i) (hb : Atoi b = some j) (hi : 0 ≤ i) (hj : 0 ≤ j) :
    cmdSwapdb_cb a b m c =
      (swapDB m i j, { c with trace := c.trace ++ [Event.write (Item.inline "OK")] }) := by
  have hneg : ¬ (i < 0 ∨ j < 0) := by omega
  simp [cmdSwapdb_cb, ha, hb, hneg, Peer.WriteOK, Peer.WriteInline]

/-- C8, as stated, fails: SWAPDB `a` `b` has a second argument that is not an
integer, yet the reply is "ERR invalid first DB index", not
"ERR invalid second DB index"; and SWAPDB `-1` `b` has a negative index, yet the
reply is "ERR invalid second DB index", not "ERR DB index is out of range". -/
theorem cmdSwapdb_validation_counterexample :
    passesAuth sampleServer freshPeer ∧ freshPeer.Ctx.queuing = false ∧
    Atoi "b" = none ∧
    (cmdSwapdb sampleMessages sampleServer freshPeer "SWAPDB" ["a", "b"]).2.trace ≠
      freshPeer.trace ++ [Event.write (Item.error "ERR invalid second DB index")] ∧
    (cmdSwapdb sampleMessages sampleServer freshPeer "SWAPDB" ["a", "b"]).2.trace =
      freshPeer.trace ++ [Event.write (Item.error "ERR invalid first DB index")] ∧
    Atoi "-1" = some (-1) ∧
    (cmdSwapdb sampleMessages sampleServer freshPeer "SWAPDB" ["-1", "b"]).2.trace ≠
      freshPeer.trace ++ [Event.write (Item.error "ERR DB index is out of range")] ∧
    (cmdSwapdb sampleMessages sampleServer freshPeer "SWAPDB" ["-1", "b"]).2.trace =
      freshPeer.trace ++ [Event.write (Item.error "ERR invalid second DB index")] := by
  decide

/-- C8, amended: for SWAPDB `a` `b` on a connection that passes the Auth Gate
and is not queuing, the indices are validated in order. If `a` is not an integer
the reply is "ERR invalid first DB index"; if `a` is an integer and `b` is not,
the reply is "ERR invalid second DB index"; if both are integers and one of them
is negative, the reply is "ERR DB index is out of range". In each of these cases
the taint flag is set and the server (registry included) is returned as it was,
`swapDB` not being called. When both parse to non-negative integers the server
becomes `swapDB m i j` and OK is written, and OK is written only then. -/
theorem cmdSwapdb_validation {DB : Type} (K : Messages) (m : Miniredis DB) (c : Peer)
    (cmd : String) (a b : String) (hauth : passesAuth m c) (hq : c.Ctx.queuing = false) :
    (Atoi a = none →
      cmdSwapdb K m c cmd [a, b] =
        (m, { c with Ctx := { c.Ctx with taint := true }
                     trace := c.trace ++
                       [Event.write (Item.error "ERR invalid first DB index")] })) ∧
    (∀ i : Int, Atoi a = some i → Atoi b = none →
      cmdSwapdb K m c cmd [a, b] =
        (m, { c with Ctx := { c.Ctx with taint := true }
                     trace := c.trace ++
                       [Event.write (Item.error "ERR invalid second DB index")] })) ∧
    (∀ i j : Int, Atoi a = some i → Atoi b = some j → (i < 0 ∨ j < 0) →
      cmdSwapdb K m c cmd [a, b] =
        (m, { c with Ctx := { c.Ctx with taint := true }
                     trace := c.trace ++
                       [Event.write (Item.error "ERR DB index is out of range")] })) ∧
    (∀ i j : Int, Atoi a = some i → Atoi b = some j → 0 ≤ i → 0 ≤ j →
      cmdSwapdb K m c cmd [a, b] =
        (swapDB m i j, { c with trace := c.trace ++ [Event.write (Item.inline "OK")] })) ∧
    ((cmdSwapdb K m c cmd [a, b]).2.trace = c.trace ++ [Event.write (Item.inline "OK")] ↔
      ∃ i j : Int, Atoi a = some i ∧ Atoi b = some j ∧ 0 ≤ i ∧ 0 ≤ j) := by
  rw [cmdSwapdb_runs_closure K m c cmd a b hauth hq]
  have h1 : Atoi a = none →
      cmdSwapdb_cb a b m c =
        (m, { c with Ctx := { c.Ctx with taint := true }
                     trace := c.trace ++
                       [Event.write (Item.error "ERR invalid first DB index")] }) := by
    intro h
    simp [cmdSwapdb_cb, h, setDirty, Peer.WriteError]
  have h2 : ∀ i : Int, Atoi a = some i → Atoi b = none →
      cmdSwapdb_cb a b m c =
        (m, { c with Ctx := { c.Ctx with taint := true }
                     trace := c.trace ++
                       [Event.write (Item.error "ERR invalid second DB index")] }) := by
    intro i ha hb
    simp [cmdSwapdb_cb, ha, hb, setDirty, Peer.WriteError]
  have h3 : ∀ i j : Int, Atoi a = some i → Atoi b = some j → (i < 0 ∨ j < 0) →
      cmdSwapdb_cb a b m c =
        (m, { c with Ctx := { c.Ctx with taint := true }
                     trace := c.trace ++
                       [Event.write (Item.error "ERR DB index is out of range")] }) := by
    intro i j ha hb hneg
    simp [cmdSwapdb_cb, ha, hb, hneg, setDirty, Peer.WriteError]
  have h4 : ∀ i j : Int, Atoi a = some i → Atoi b = some j → 0 ≤ i → 0 ≤ j →
      cmdSwapdb_cb a b m c =
        (swapDB m i j, { c with trace := c.trace ++ [Event.write (Item.inline "OK")] }) := by
    intro i j ha hb hi hj
    exact cmdSwapdb_cb_of_valid m c a b i j ha hb hi hj
  refine ⟨h1, h2, h3, h4, ?_, ?_⟩
  · intro htr
    cases ha : Atoi a with
    | none => rw [h1 ha] at htr; simp at htr
    | some i =>
      cases hb : Atoi b with
      | none => rw [h2 i ha hb] at htr; simp at htr
      | some j =>
        by_cases hneg : i < 0 ∨ j < 0
        · rw [h3 i j ha hb hneg] at htr; simp at htr
        · exact ⟨i, j, rfl, rfl, by omega, by omega⟩
  · rintro ⟨i, j, ha, hb, hi, hj⟩
    rw [h4 i j ha hb hi hj]

/-- Evaluation of `cmdSwapdb_validation` at SWAPDB 1 x. -/
theorem cmdSwapdb_validation_witness :
    passesAuth sampleServer freshPeer ∧ freshPeer.Ctx.queuing = false ∧
    Atoi "1" = some 1 ∧ Atoi "x" = none ∧
    (cmdSwapdb sampleMessages sampleServer freshPeer "SWAPDB" ["1", "x"]).2 =
      { freshPeer with
          Ctx := { freshPeer.Ctx with taint := true }
          trace := freshPeer.trace ++
            [Event.write (Item.error "ERR invalid second DB index")] } :=
  ⟨by decide, rfl, by decide, by decide,
    congrArg Prod.snd
      ((cmdSwapdb_validation sampleMessages sampleServer freshPeer "SWAPDB" "1" "x"
        (by decide) rfl).2.1 1 (by decide) (by decide))⟩

/-- What `swapDB` leaves at each index of the registry. -/
theorem swapDB_dbs {DB : Type} (m : Miniredis DB) (i j : Int) :
    (swapDB m i j).dbs i = m.dbs j ∧ (swapDB m i j).dbs j = m.dbs i ∧
    (∀ k : Int, k ≠ i → k ≠ j → (swapDB m i j).dbs k = m.dbs k) ∧
    (swapDB m i j).passwords = m.passwords := by
  refine ⟨?_, ?_, ?_, rfl⟩
  · simp [swapDB]
  · by_cases h : j = i
    · simp [swapDB, h]
    · simp [swapDB, h]
  · intro k hi hj
    simp [swapDB, hi, hj]

/-- C9: after a successful SWAPDB `i` `j` (both arguments parse to non-negative
integers, the issuing connection passes the Auth Gate and is not queuing) the
registry holds at `i` what it held at `j`, at `j` what it held at `i`, and at
every other index what it held before; the handler replies OK and does not touch
the connection context, selectedDB included. Any connection (the issuing one or
another) that then selects `i` reads, at its selected index, the former contents
of `j`, and one that selects `j` reads the former contents of `i`. -/
theorem cmdSwapdb_exchanges {DB : Type} (K : Messages) (m : Miniredis DB) (c : Peer)
    (cmd : String) (a b : String) (i j : Int) (hauth : passesAuth m c)
    (hq : c.Ctx.queuing = false) (ha : Atoi a = some i) (hb : Atoi b = some j)
    (hi : 0 ≤ i) (hj : 0 ≤ j) :
    (cmdSwapdb K m c cmd [a, b]).2.trace = c.trace ++ [Event.write (Item.inline "OK")] ∧
    (cmdSwapdb K m c cmd [a, b]).1.dbs i = m.dbs j ∧
    (cmdSwapdb K m c cmd [a, b]).1.dbs j = m.dbs i ∧
    (∀ k : Int, k ≠ i → k ≠ j → (cmdSwapdb K m c cmd [a, b]).1.dbs k = m.dbs k) ∧
    (cmdSwapdb K m c cmd [a, b]).2.Ctx = c.Ctx ∧
    (∀ (c2 : Peer) (cmd2 s : String),
      passesAuth (cmdSwapdb K m c cmd [a, b]).1 c2 → c2.Ctx.subscriber = none →
      c2.Ctx.queuing = false →
      (Atoi s = some i →
        (cmdSelect K (cmdSwapdb K m c cmd [a, b]).1 c2 cmd2 [s]).2.Ctx.selectedDB = i ∧
        (cmdSelect K (cmdSwapdb K m c cmd [a, b]).1 c2 cmd2 [s]).1.dbs
          (cmdSelect K (cmdSwapdb K m c cmd [a, b]).1 c2 cmd2 [s]).2.Ctx.selectedDB = m.dbs j) ∧
      (Atoi s = some j →
        (cmdSelect K (cmdSwapdb K m c cmd [a, b]).1 c2 cmd2 [s]).2.Ctx.selectedDB = j ∧
        (cmdSelect K (cmdSwapdb K m c cmd [a, b]).1 c2 cmd2 [s]).1.dbs
          (cmdSelect K (cmdSwapdb K m c cmd [a, b]).1 c2 cmd2 [s]).2.Ctx.selectedDB = m.dbs i)) := by
  have e : cmdSwapdb K m c cmd [a, b] =
      (swapDB m i j, { c with trace := c.trace ++ [Event.write (Item.inline "OK")] }) := by
    rw [cmdSwapdb_runs_closure K m c cmd a b hauth hq]
    exact cmdSwapdb_cb_of_valid m c a b i j ha hb hi hj
  rw [e]
  obtain ⟨s1, s2, s3, _⟩ := swapDB_dbs m i j
  refine ⟨rfl, s1, s2, s3, rfl, ?_⟩
  intro c2 cmd2 s hauth2 hsub2 hq2
  constructor
  · intro hs
    rw [cmdSelect_runs_closure K (swapDB m i j) c2 cmd2 s hauth2 hsub2 hq2,
      cmdSelect_cb_of_valid (swapDB m i j) c2 s i hs hi]
    exact ⟨rfl, s1⟩
  · intro hs
    rw [cmdSelect_runs_closure K (swapDB m i j) c2 cmd2 s hauth2 hsub2 hq2,
      cmdSelect_cb_of_valid (swapDB m i j) c2 s j hs hj]
    exact ⟨rfl, s2⟩

/-- Evaluation of `cmdSwapdb_exchanges` at SWAPDB 1 2 on the server whose
database `i` holds the number `i`. -/
theorem cmdSwapdb_exchanges_witness :
    passesAuth sampleServer freshPeer ∧ freshPeer.Ctx.queuing = false ∧
    Atoi "1" = some 1 ∧ Atoi "2" = some 2 ∧
    (cmdSwapdb sampleMessages sampleServer freshPeer "SWAPDB" ["1", "2"]).1.dbs 1 = 2 ∧
    (cmdSwapdb sampleMessages sampleServer freshPeer "SWAPDB" ["1", "2"]).1.dbs 2 = 1 :=
  have h := cmdSwapdb_exchanges sampleMessages sampleServer freshPeer "SWAPDB" "1" "2" 1 2
    (by decide) rfl (by decide) (by decide) (by decide) (by decide)
  ⟨by decide, rfl, by decide, by decide, h.2.1, h.2.2.1⟩

/-! ## QUIT -/

/-- C10: for every argument list and every connection context, QUIT writes OK
and then closes the connection, and does nothing else: the server (Database
Registry and Credential Store) and the whole connection context (authenticated,
selectedDB, taint, queuing and the pending queue, none of whose effects is run)
are unchanged. -/
theorem cmdQuit_writes_ok_then_closes {DB : Type} (m : Miniredis DB) (c : Peer)
    (cmd : String) (args : List String) :
    cmdQuit m c cmd args =
      (m, { c with trace := c.trace ++ [Event.write (Item.inline "OK"), Event.close] }) ∧
    (cmdQuit m c cmd args).2.Ctx.queue = c.Ctx.queue ∧
    (cmdQuit m c cmd args).2.Ctx.authenticated = c.Ctx.authenticated ∧
    (cmdQuit m c cmd args).2.Ctx.selectedDB = c.Ctx.selectedDB ∧
    (cmdQuit m c cmd args).2.Ctx.taint = c.Ctx.taint ∧
    (cmdQuit m c cmd args).1.dbs = m.dbs := by
  have e : cmdQuit m c cmd args =
      (m, { c with trace := c.trace ++ [Event.write (Item.inline "OK"), Event.close] }) := by
    simp [cmdQuit, Peer.Close, Peer.WriteOK, Peer.WriteInline]
  rw [e]
  exact ⟨rfl, rfl, rfl, rfl, rfl, rfl⟩

/-! ## Argument counts -/

/-- C11: on a connection that passes the Auth Gate, queuing or not, a wrong
argument count (PING with more than one argument, AUTH without argument, ECHO
or SELECT with a count other than one, SWAPDB with a count other than two) is
answered at once with the error `errWrongNumber cmd`, which is the text
"ERR wrong number of arguments for '<command>' command" with the command name
the handler was called with; the taint flag is set, and the pending queue,
authenticated, selectedDB and the server (registry included) are unchanged. -/
theorem wrong_arity_taints {DB : Type} (K : Messages) (m : Miniredis DB) (c : Peer)
    (cmd : String) (args : List String) (hauth : passesAuth m c) :
    (args.length > 1 →
      cmdPing K m c cmd args =
        (m, { c with Ctx := { c.Ctx with taint := true }
                     trace := c.trace ++ [Event.write (Item.error (errWrongNumber cmd))] })) ∧
    (args.length < 1 →
      cmdAuth K m c cmd args =
        (m, { c with Ctx := { c.Ctx with taint := true }
                     trace := c.trace ++ [Event.write (Item.error (errWrongNumber cmd))] })) ∧
    (args.length ≠ 1 →
      cmdEcho K m c cmd args =
        (m, { c with Ctx := { c.Ctx with taint := true }
                     trace := c.trace ++ [Event.write (Item.error (errWrongNumber cmd))] })) ∧
    (args.length ≠ 1 →
      cmdSelect K m c cmd args =
        (m, { c with Ctx := { c.Ctx with taint := true }
                     trace := c.trace ++ [Event.write (Item.error (errWrongNumber cmd))] })) ∧
    (args.length ≠ 2 →
      cmdSwapdb K m c cmd args =
        (m, { c with Ctx := { c.Ctx with taint := true }
                     trace := c.trace ++ [Event.write (Item.error (errWrongNumber cmd))] })) ∧
    errWrongNumber cmd = "ERR wrong number of arguments for '" ++ cmd ++ "' command" := by
  refine ⟨?_, ?_, ?_, ?_, ?_, rfl⟩
  · intro h
    unfold cmdPing
    rw [handleAuth_of_passesAuth K m c hauth]
    simp [h, setDirty, Peer.WriteError]
  · intro h
    unfold cmdAuth
    simp [h, setDirty, Peer.WriteError]
  · intro h
    match args, h with
    | [], _ => simp [cmdEcho, setDirty, Peer.WriteError]
    | [_], h => simp at h
    | _ :: _ :: _, _ => simp [cmdEcho, setDirty, Peer.WriteError]
  · intro h
    match args, h with
    | [], _ => simp [cmdSelect, setDirty, Peer.WriteError]
    | [_], h => simp at h
    | _ :: _ :: _, _ => simp [cmdSelect, setDirty, Peer.WriteError]
  · intro h
    match args, h with
    | [], _ => simp [cmdSwapdb, setDirty, Peer.WriteError]
    | [_], _ => simp [cmdSwapdb, setDirty, Peer.WriteError]
    | [_, _], h => simp at h
    | _ :: _ :: _ :: _, _ => simp [cmdSwapdb, setDirty, Peer.WriteError]

/-- Evaluation of `wrong_arity_taints` for ECHO without argument on a queuing
connection. -/
theorem wrong_arity_taints_witness :
    passesAuth sampleServer queuingPeer ∧ queuingPeer.Ctx.queuing = true ∧
    cmdEcho sampleMessages sampleServer queuingPeer "ECHO" [] =
      (sampleServer, { queuingPeer with
          Ctx := { queuingPeer.Ctx with taint := true }
          trace := queuingPeer.trace ++ [Event.write (Item.error
            "ERR wrong number of arguments for 'ECHO' command")] }) :=
  ⟨by decide, rfl,
    (wrong_arity_taints sampleMessages sampleServer queuingPeer "ECHO" []
      (by decide)).2.2.1 (by decide)⟩

/-- C12: AUTH with more than two arguments replies "ERR syntax error" and
changes nothing else: the taint flag keeps the value it had, so it is not set
on a connection that was not tainted, queuing or not. -/
theorem cmdAuth_syntax_error_no_taint {DB : Type} (K : Messages) (m : Miniredis DB)
    (c : Peer) (cmd : String) (args : List String) (hlen : args.length > 2) :
    cmdAuth K m c cmd args =
      (m, { c with trace := c.trace ++ [Event.write (Item.error "ERR syntax error")] }) ∧
    (cmdAuth K m c cmd args).2.Ctx.taint = c.Ctx.taint ∧
    (c.Ctx.taint = false → (cmdAuth K m c cmd args).2.Ctx.taint ≠ true) := by
  have e : cmdAuth K m c cmd args =
      (m, { c with trace := c.trace ++ [Event.write (Item.error "ERR syntax error")] }) := by
    unfold cmdAuth
    have h1 : ¬ args.length < 1 := by omega
    simp [h1, hlen, Peer.WriteError, msgSyntaxError]
  rw [e]
  refine ⟨rfl, rfl, ?_⟩
  intro h
  simp [h]

/-- Evaluation of `cmdAuth_syntax_error_no_taint` at AUTH a b c on a queuing
connection. -/
theorem cmdAuth_syntax_error_no_taint_witness :
    ["a", "b", "c"].length > 2 ∧ queuingPeer.Ctx.taint = false ∧
    (cmdAuth sampleMessages sampleServer queuingPeer "AUTH" ["a", "b", "c"]).2.trace =
      [Event.write (Item.error "ERR syntax error")] ∧
    (cmdAuth sampleMessages sampleServer queuingPeer "AUTH" ["a", "b", "c"]).2.Ctx.taint =
      false :=
  have h := cmdAuth_syntax_error_no_taint sampleMessages sampleServer queuingPeer "AUTH"
    ["a", "b", "c"] (by decide)
  ⟨by decide, rfl, by rw [h.1]; rfl, h.2.1⟩

/-! ## Order of the Auth Gate and the argument count -/

/-- C13, as stated, fails: with a non-empty Credential Store and an
unauthenticated connection, ECHO without argument, SELECT without argument and
SWAPDB with one argument do not reply the NOAUTH error: each replies the
wrong-argument-count error and sets the taint flag. -/
theorem auth_gate_first_counterexample :
    securedServer.passwords ≠ [] ∧ freshPeer.Ctx.authenticated = false ∧
    freshPeer.Ctx.taint = false ∧
    (cmdEcho sampleMessages securedServer freshPeer "ECHO" []).2.trace ≠
      freshPeer.trace ++ [Event.write (Item.error sampleMessages.msgNoAuth)] ∧
    (cmdEcho sampleMessages securedServer freshPeer "ECHO" []).2.trace =
      freshPeer.trace ++
        [Event.write (Item.error "ERR wrong number of arguments for 'ECHO' command")] ∧
    (cmdEcho sampleMessages securedServer freshPeer "ECHO" []).2.Ctx.taint = true ∧
    (cmdSelect sampleMessages securedServer freshPeer "SELECT" []).2.trace ≠
      freshPeer.trace ++ [Event.write (Item.error sampleMessages.msgNoAuth)] ∧
    (cmdSelect sampleMessages securedServer freshPeer "SELECT" []).2.trace =
      freshPeer.trace ++
        [Event.write (Item.error "ERR wrong number of arguments for 'SELECT' command")] ∧
    (cmdSelect sampleMessages securedServer freshPeer "SELECT" []).2.Ctx.taint = true ∧
    (cmdSwapdb sampleMessages securedServer freshPeer "SWAPDB" ["1"]).2.trace ≠
      freshPeer.trace ++ [Event.write (Item.error sampleMessages.msgNoAuth)] ∧
    (cmdSwapdb sampleMessages securedServer freshPeer "SWAPDB" ["1"]).2.trace =
      freshPeer.trace ++
        [Event.write (Item.error "ERR wrong number of arguments for 'SWAPDB' command")] ∧
    (cmdSwapdb sampleMessages securedServer freshPeer "SWAPDB" ["1"]).2.Ctx.taint = true := by
  decide

/-- C13, amended: when the Credential Store is non-empty and the connection is
not authenticated, PING with any argument list, and ECHO, SELECT and SWAPDB
called with their argument count (one, one, two), reply the NOAUTH error and
nothing else, and change neither the server nor the connection context (taint
flag, selectedDB, pending queue). With any other argument count ECHO, SELECT
and SWAPDB do not reach the Auth Gate: they reply the wrong-argument-count
error, not the NOAUTH error, and set the taint flag. -/
theorem auth_gate_blocks {DB : Type} (K : Messages) (m : Miniredis DB) (c : Peer)
    (cmd : String) (hstore : m.passwords ≠ []) (hnoauth : c.Ctx.authenticated = false) :
    (∀ args : List String,
      cmdPing K m c cmd args =
        (m, { c with trace := c.trace ++ [Event.write (Item.error K.msgNoAuth)] })) ∧
    (∀ a : String,
      cmdEcho K m c cmd [a] =
        (m, { c with trace := c.trace ++ [Event.write (Item.error K.msgNoAuth)] })) ∧
    (∀ a : String,
      cmdSelect K m c cmd [a] =
        (m, { c with trace := c.trace ++ [Event.write (Item.error K.msgNoAuth)] })) ∧
    (∀ a b : String,
      cmdSwapdb K m c cmd [a, b] =
        (m, { c with trace := c.trace ++ [Event.write (Item.error K.msgNoAuth)] })) ∧
    (∀ args : List String, args.length ≠ 1 →
      cmdEcho K m c cmd args =
        (m, { c with Ctx := { c.Ctx with taint := true }
                     trace := c.trace ++ [Event.write (Item.error (errWrongNumber cmd))] })) ∧
    (∀ args : List String, args.length ≠ 1 →
      cmdSelect K m c cmd args =
        (m, { c with Ctx := { c.Ctx with taint := true }
                     trace := c.trace ++ [Event.write (Item.error (errWrongNumber cmd))] })) ∧
    (∀ args : List String, args.length ≠ 2 →
      cmdSwapdb K m c cmd args =
        (m, { c with Ctx := { c.Ctx with taint := true }
                     trace := c.trace ++ [Event.write (Item.error (errWrongNumber cmd))] })) := by
  have hg : handleAuth K m c = (false, c.WriteError K.msgNoAuth) := by
    apply handleAuth_of_not_passesAuth
    rintro (h | h)
    · exact hstore h
    · rw [hnoauth] at h; exact Bool.noConfusion h
  refine ⟨?_, ?_, ?_, ?_, ?_, ?_, ?_⟩
  · intro args
    unfold cmdPing
    rw [hg]
    rfl
  · intro a
    unfold cmdEcho
    simp only [hg]
    rfl
  · intro a
    unfold cmdSelect
    simp only [hg]
    rfl
  · intro a b
    unfold cmdSwapdb
    simp only [hg]
    rfl
  · intro args h
    match args, h with
    | [], _ => simp [cmdEcho, setDirty, Peer.WriteError]
    | [_], h => simp at h
    | _ :: _ :: _, _ => simp [cmdEcho, setDirty, Peer.WriteError]
  · intro args h
    match args, h with
    | [], _ => simp [cmdSelect, setDirty, Peer.WriteError]
    | [_], h => simp at h
    | _ :: _ :: _, _ => simp [cmdSelect, setDirty, Peer.WriteError]
  · intro args h
    match args, h with
    | [], _ => simp [cmdSwapdb, setDirty, Peer.WriteError]
    | [_], _ => simp [cmdSwapdb, setDirty, Peer.WriteError]
    | [_, _], h => simp at h
    | _ :: _ :: _ :: _, _ => simp [cmdSwapdb, setDirty, Peer.WriteError]

/-- Evaluation of `auth_gate_blocks` on a server with a password: SELECT 3 is
stopped by the Auth Gate, SWAPDB 1 by the argument count. -/
theorem auth_gate_blocks_witness :
    securedServer.passwords ≠ [] ∧ freshPeer.Ctx.authenticated = false ∧
    cmdSelect sampleMessages securedServer freshPeer "SELECT" ["3"] =
      (securedServer, { freshPeer with trace := freshPeer.trace ++
          [Event.write (Item.error sampleMessages.msgNoAuth)] }) ∧
    cmdSwapdb sampleMessages securedServer freshPeer "SWAPDB" ["1"] =
      (securedServer, { freshPeer with
          Ctx := { freshPeer.Ctx with taint := true }
          trace := freshPeer.trace ++ [Event.write (Item.error (errWrongNumber "SWAPDB"))] }) :=
  have h := auth_gate_blocks sampleMessages securedServer freshPeer "SELECT" (by decide) rfl
  have h2 := auth_gate_blocks sampleMessages securedServer freshPeer "SWAPDB" (by decide) rfl
  ⟨by decide, rfl, h.2.2.1 "3", h2.2.2.2.2.2.2 ["1"] (by decide)⟩

/-! ## Queuing -/

/-- With at most one argument, on a connection that passes the Auth Gate and is
not subscribed, `cmdPing` hands its closure to `withTx`. -/
theorem cmdPing_reaches_withTx {DB : Type} (K : Messages) (m : Miniredis DB) (c : Peer)
    (cmd : String) (args : List String) (hauth : passesAuth m c)
    (hsub : c.Ctx.subscriber = none) (hlen : args.length ≤ 1) :
    cmdPing K m c cmd args = withTx K m c (txCmd.ping (args.headD "")) := by
  unfold cmdPing
  rw [handleAuth_of_passesAuth K m c hauth]
  have hn : ¬ args.length > 1 := by omega
  simp only [hn, if_false, getCtx, hsub, Option.isSome_none, Bool.false_eq_true]
  match args, hlen with
  | [], _ => rfl
  | [a], _ => rfl

/-- With one or two arguments, on a connection that is neither subscribed nor
nested, `cmdAuth` hands its closure, on the resolved username and password, to
`withTx`. -/
theorem cmdAuth_reaches_withTx {DB : Type} (K : Messages) (m : Miniredis DB) (c : Peer)
    (cmd : String) (args : List String) (user pw : String)
    (hargs : (args = [pw] ∧ user = "default") ∨ args = [user, pw])
    (hsub : c.Ctx.subscriber = none) (hn : c.Ctx.nested = false) :
    cmdAuth K m c cmd args = withTx K m c (txCmd.auth user pw) := by
  rcases hargs with ⟨rfl, rfl⟩ | rfl
  · unfold cmdAuth
    rw [checkPubsub_of_not_subscribed c cmd hsub]
    simp only [List.length_singleton, Nat.lt_irrefl, if_false, getCtx, hn, Bool.false_eq_true,
      show ¬ (1 > 2) by decide]
  · unfold cmdAuth
    rw [checkPubsub_of_not_subscribed c cmd hsub]
    simp only [List.length_cons, List.length_nil, getCtx, hn, Bool.false_eq_true, if_false,
      show ¬ (0 + 1 + 1 < 1) by decide, show ¬ (0 + 1 + 1 > 2) by decide]

/-- C14, as stated, fails: on a nested connection in the Queuing state that
passes the Auth Gate and is not subscribed, AUTH with the right password is not
queued: the reply is the nested-context error and the queue stays empty. -/
theorem queuing_appends_counterexample :
    passesAuth securedServer nestedQueuingPeer ∧
    nestedQueuingPeer.Ctx.subscriber = none ∧ nestedQueuingPeer.Ctx.queuing = true ∧
    securedServer.passwords.lookup "default" = some "secret" ∧
    (cmdAuth sampleMessages securedServer nestedQueuingPeer "AUTH" ["secret"]).2.Ctx.queue
      = nestedQueuingPeer.Ctx.queue ∧
    (cmdAuth sampleMessages securedServer nestedQueuingPeer "AUTH" ["secret"]).2.trace ≠
      nestedQueuingPeer.trace ++ [Event.write (Item.inline sampleMessages.msgQueued)] ∧
    (cmdAuth sampleMessages securedServer nestedQueuingPeer "AUTH" ["secret"]).2.trace =
      nestedQueuingPeer.trace ++
        [Event.write (Item.error sampleMessages.msgNotFromScripts)] := by
  decide

/-- C14, amended: on a connection in the Queuing state that passes the Auth
Gate and is not subscribed, PING (at most one argument), ECHO (one argument),
SELECT (one argument), SWAPDB (two arguments) and, when the connection is not
nested, AUTH (one or two arguments) append exactly their effect to the pending
queue and write only the queuing acknowledgment; the server (registry included)
and the rest of the context (selectedDB, authenticated, taint) are unchanged. -/
theorem queuing_appends {DB : Type} (K : Messages) (m : Miniredis DB) (c : Peer)
    (cmd : String) (hauth : passesAuth m c) (hsub : c.Ctx.subscriber = none)
    (hq : c.Ctx.queuing = true) :
    (∀ args : List String, args.length ≤ 1 →
      cmdPing K m c cmd args =
        (m, { c with Ctx := { c.Ctx with queue := c.Ctx.queue ++ [txCmd.ping (args.headD "")] }
                     trace := c.trace ++ [Event.write (Item.inline K.msgQueued)] })) ∧
    (c.Ctx.nested = false →
      ∀ (args : List String) (user pw : String),
        ((args = [pw] ∧ user = "default") ∨ args = [user, pw]) →
        cmdAuth K m c cmd args =
          (m, { c with Ctx := { c.Ctx with queue := c.Ctx.queue ++ [txCmd.auth user pw] }
                       trace := c.trace ++ [Event.write (Item.inline K.msgQueued)] })) ∧
    (∀ a : String,
      cmdEcho K m c cmd [a] =
        (m, { c with Ctx := { c.Ctx with queue := c.Ctx.queue ++ [txCmd.echo a] }
                     trace := c.trace ++ [Event.write (Item.inline K.msgQueued)] })) ∧
    (∀ a : String,
      cmdSelect K m c cmd [a] =
        (m, { c with Ctx := { c.Ctx with queue := c.Ctx.queue ++ [txCmd.select a] }
                     trace := c.trace ++ [Event.write (Item.inline K.msgQueued)] })) ∧
    (∀ a b : String,
      cmdSwapdb K m c cmd [a, b] =
        (m, { c with Ctx := { c.Ctx with queue := c.Ctx.queue ++ [txCmd.swapdb a b] }
                     trace := c.trace ++ [Event.write (Item.inline K.msgQueued)] })) := by
  have hg := handleAuth_of_passesAuth K m c hauth
  have hp := checkPubsub_of_not_subscribed c cmd hsub
  refine ⟨?_, ?_, ?_, ?_, ?_⟩
  · intro args hlen
    rw [cmdPing_reaches_withTx K m c cmd args hauth hsub hlen]
    exact withTx_queuing K m c _ hq
  · intro hn args user pw hargs
    rw [cmdAuth_reaches_withTx K m c cmd args user pw hargs hsub hn]
    exact withTx_queuing K m c _ hq
  · intro a
    unfold cmdEcho
    simp only [hg, hp]
    exact withTx_queuing K m c _ hq
  · intro a
    unfold cmdSelect
    simp only [hg, hp]
    exact withTx_queuing K m c _ hq
  · intro a b
    unfold cmdSwapdb
    simp only [hg]
    exact withTx_queuing K m c _ hq

/-- Evaluation of `queuing_appends` at SELECT 3 on a queuing connection:
selectedDB stays 0. -/
theorem queuing_appends_witness :
    passesAuth sampleServer queuingPeer ∧ queuingPeer.Ctx.subscriber = none ∧
    queuingPeer.Ctx.queuing = true ∧
    cmdSelect sampleMessages sampleServer queuingPeer "SELECT" ["3"] =
      (sampleServer, { queuingPeer with
          Ctx := { queuingPeer.Ctx with queue := queuingPeer.Ctx.queue ++ [txCmd.select "3"] }
          trace := queuingPeer.trace ++ [Event.write (Item.inline sampleMessages.msgQueued)] }) ∧
    (cmdSelect sampleMessages sampleServer queuingPeer "SELECT" ["3"]).2.Ctx.selectedDB = 0 :=
  have h := (queuing_appends sampleMessages sampleServer queuingPeer "SELECT"
    (by decide) rfl rfl).2.2.2.1 "3"
  ⟨by decide, rfl, rfl, h, by rw [h]; rfl⟩

/-- C15: on a connection in the Queuing state that passes the Auth Gate and is
not subscribed, the code does not answer a SELECT whose index does not parse or
is negative, nor a SWAPDB with such an index, with its typed error: the index is
validated inside the closure handed to the Transaction Wrapper, so at queue time
the reply is the queuing acknowledgment, the effect is appended to the pending
queue, and the taint flag is left as it was. The typed error is written and
`setDirty` called only when the queued effect is run. -/
theorem queued_validation_deferred {DB : Type} (K : Messages) (m : Miniredis DB) (c : Peer)
    (cmd : String) (hauth : passesAuth m c) (hsub : c.Ctx.subscriber = none)
    (hq : c.Ctx.queuing = true) :
    (∀ a : String, (Atoi a = none ∨ ∃ n : Int, Atoi a = some n ∧ n < 0) →
      cmdSelect K m c cmd [a] =
        (m, { c with Ctx := { c.Ctx with queue := c.Ctx.queue ++ [txCmd.select a] }
                     trace := c.trace ++ [Event.write (Item.inline K.msgQueued)] }) ∧
      ∃ msg : String, ∀ (m2 : Miniredis DB) (c2 : Peer),
        (txCmd.select a).run m2 c2 =
          (m2, { c2 with Ctx := { c2.Ctx with taint := true }
                         trace := c2.trace ++ [Event.write (Item.error msg)] })) ∧
    (∀ a b : String,
      ((Atoi a = none ∨ ∃ n : Int, Atoi a = some n ∧ n < 0) ∨
       (Atoi b = none ∨ ∃ n : Int, Atoi b = some n ∧ n < 0)) →
      cmdSwapdb K m c cmd [a, b] =
        (m, { c with Ctx := { c.Ctx with queue := c.Ctx.queue ++ [txCmd.swapdb a b] }
                     trace := c.trace ++ [Event.write (Item.inline K.msgQueued)] }) ∧
      ∃ msg : String, ∀ (m2 : Miniredis DB) (c2 : Peer),
        (txCmd.swapdb a b).run m2 c2 =
          (m2, { c2 with Ctx := { c2.Ctx with taint := true }
                         trace := c2.trace ++ [Event.write (Item.error msg)] })) := by
  have hg := handleAuth_of_passesAuth K m c hauth
  have hp := checkPubsub_of_not_subscribed c cmd hsub
  constructor
  · intro a ha
    constructor
    · unfold cmdSelect
      simp only [hg, hp]
      exact withTx_queuing K m c _ hq
    · rcases ha with ha | ⟨n, ha, hn⟩
      · exact ⟨"ERR invalid DB index", fun m2 c2 => by
          simp [txCmd.run, cmdSelect_cb, ha, setDirty, Peer.WriteError]⟩
      · exact ⟨"ERR DB index is out of range", fun m2 c2 => by
          simp [txCmd.run, cmdSelect_cb, ha, hn, setDirty, Peer.WriteError]⟩
  · intro a b hab
    constructor
    · unfold cmdSwapdb
      simp only [hg]
      exact withTx_queuing K m c _ hq
    · cases ha : Atoi a with
      | none =>
        exact ⟨"ERR invalid first DB index", fun m2 c2 => by
          simp [txCmd.run, cmdSwapdb_cb, ha, setDirty, Peer.WriteError]⟩
      | some i =>
        cases hb : Atoi b with
        | none =>
          exact ⟨"ERR invalid second DB index", fun m2 c2 => by
            simp [txCmd.run, cmdSwapdb_cb, ha, hb, setDirty, Peer.WriteError]⟩
        | some j =>
          have hneg : i < 0 ∨ j < 0 := by
            rcases hab with (h | ⟨n, h, hn⟩) | (h | ⟨n, h, hn⟩)
            · rw [ha] at h; exact Option.noConfusion h
            · rw [ha] at h; cases h; exact Or.inl hn
            · rw [hb] at h; exact Option.noConfusion h
            · rw [hb] at h; cases h; exact Or.inr hn
          exact ⟨"ERR DB index is out of range", fun m2 c2 => by
            simp [txCmd.run, cmdSwapdb_cb, ha, hb, hneg, setDirty, Peer.WriteError]⟩

/-- Evaluation of `queued_validation_deferred` at SELECT -1 on a queuing
connection whose taint flag is false: the reply is the queuing acknowledgment,
not "ERR DB index is out of range", and the taint flag is still false. -/
theorem queued_validation_deferred_witness :
    passesAuth sampleServer queuingPeer ∧ queuingPeer.Ctx.subscriber = none ∧
    queuingPeer.Ctx.queuing = true ∧ queuingPeer.Ctx.taint = false ∧
    Atoi "-1" = some (-1) ∧
    cmdSelect sampleMessages sampleServer queuingPeer "SELECT" ["-1"] =
      (sampleServer, { queuingPeer with
          Ctx := { queuingPeer.Ctx with queue := queuingPeer.Ctx.queue ++ [txCmd.select "-1"] }
          trace := queuingPeer.trace ++ [Event.write (Item.inline sampleMessages.msgQueued)] }) ∧
    (cmdSelect sampleMessages sampleServer queuingPeer "SELECT" ["-1"]).2.trace ≠
      queuingPeer.trace ++ [Event.write (Item.error "ERR DB index is out of range")] ∧
    (cmdSelect sampleMessages sampleServer queuingPeer "SELECT" ["-1"]).2.Ctx.taint = false :=
  have h := ((queued_validation_deferred sampleMessages sampleServer queuingPeer "SELECT"
      (by decide) rfl rfl).1 "-1" (Or.inr ⟨-1, by decide, by decide⟩)).1
  ⟨by decide, rfl, rfl, rfl, by decide, h, by rw [h]; decide, by rw [h]; rfl⟩

/-! ## Pub/Sub Gate and nested context -/

/-- On a subscribed connection the Pub/Sub Gate blocks a command that is not on
its allow-list. -/
theorem checkPubsub_of_subscribed (c : Peer) (cmd : String)
    (hsub : c.Ctx.subscriber.isSome = true) (hcmd : cmd ∉ pubsubAllowList) :
    checkPubsub c cmd = (true, c.WriteError msgPubsubRestricted) := by
  simp [checkPubsub, getCtx, hsub, hcmd]

/-- C16: the names AUTH, ECHO and SELECT are not on the allow-list of the
Pub/Sub Gate, and on a connection whose subscriber is set a handler called
under a name that is not on the allow-list is blocked: AUTH with one or two
arguments and, when the connection passes the Auth Gate, ECHO and SELECT with
one argument reply the pub/sub restriction error and nothing else; the effect is
neither run nor queued, and the server and the connection context
(authenticated, selectedDB, taint, pending queue) are unchanged. -/
theorem pubsub_gate_blocks {DB : Type} (K : Messages) (m : Miniredis DB) (c : Peer)
    (cmd : String) (hsub : c.Ctx.subscriber.isSome = true) (hcmd : cmd ∉ pubsubAllowList) :
    ("AUTH" ∉ pubsubAllowList ∧ "ECHO" ∉ pubsubAllowList ∧ "SELECT" ∉ pubsubAllowList) ∧
    (∀ args : List String, args.length = 1 ∨ args.length = 2 →
      cmdAuth K m c cmd args =
        (m, { c with trace := c.trace ++ [Event.write (Item.error msgPubsubRestricted)] })) ∧
    (passesAuth m c → ∀ a : String,
      cmdEcho K m c cmd [a] =
        (m, { c with trace := c.trace ++ [Event.write (Item.error msgPubsubRestricted)] })) ∧
    (passesAuth m c → ∀ a : String,
      cmdSelect K m c cmd [a] =
        (m, { c with trace := c.trace ++ [Event.write (Item.error msgPubsubRestricted)] })) := by
  have hp := checkPubsub_of_subscribed c cmd hsub hcmd
  refine ⟨by decide, ?_, ?_, ?_⟩
  · intro args hlen
    unfold cmdAuth
    have h1 : ¬ args.length < 1 := by omega
    have h2 : ¬ args.length > 2 := by omega
    simp only [h1, h2, if_false, hp]
    rfl
  · intro hauth a
    unfold cmdEcho
    simp only [handleAuth_of_passesAuth K m c hauth, hp]
    rfl
  · intro hauth a
    unfold cmdSelect
    simp only [handleAuth_of_passesAuth K m c hauth, hp]
    rfl

/-- Evaluation of `pubsub_gate_blocks`: on a subscribed, unauthenticated
connection AUTH with the right password is blocked and does not authenticate. -/
theorem pubsub_gate_blocks_witness :
    subscribedQueuingPeer.Ctx.subscriber.isSome = true ∧ "AUTH" ∉ pubsubAllowList ∧
    securedServer.passwords.lookup "default" = some "secret" ∧
    cmdAuth sampleMessages securedServer subscribedQueuingPeer "AUTH" ["secret"] =
      (securedServer, { subscribedQueuingPeer with trace := subscribedQueuingPeer.trace ++
          [Event.write (Item.error msgPubsubRestricted)] }) ∧
    (cmdAuth sampleMessages securedServer subscribedQueuingPeer "AUTH"
      ["secret"]).2.Ctx.authenticated = false :=
  have h := (pubsub_gate_blocks sampleMessages securedServer subscribedQueuingPeer "AUTH"
    rfl (by decide)).2.1 ["secret"] (Or.inl rfl)
  ⟨rfl, by decide, by decide, h, by rw [h]; rfl⟩

/-- C17: on a connection that is not subscribed and whose nested flag is true,
AUTH with one or two arguments writes the nested-context error and nothing
else. The resulting connection is the same whatever the server, so the
Credential Store is not consulted; authenticated, the pending queue and the
taint flag are unchanged, queuing or not. -/
theorem cmdAuth_nested_rejected {DB : Type} (K : Messages) (m : Miniredis DB) (c : Peer)
    (cmd : String) (args : List String) (hsub : c.Ctx.subscriber = none)
    (hnested : c.Ctx.nested = true) (hlen : args.length = 1 ∨ args.length = 2) :
    cmdAuth K m c cmd args =
      (m, { c with trace := c.trace ++ [Event.write (Item.error K.msgNotFromScripts)] }) ∧
    (∀ m2 : Miniredis DB, (cmdAuth K m2 c cmd args).2 = (cmdAuth K m c cmd args).2) ∧
    (cmdAuth K m c cmd args).2.Ctx.authenticated = c.Ctx.authenticated ∧
    (cmdAuth K m c cmd args).2.Ctx.queue = c.Ctx.queue ∧
    (cmdAuth K m c cmd args).2.Ctx.taint = c.Ctx.taint := by
  have e : ∀ m2 : Miniredis DB, cmdAuth K m2 c cmd args =
      (m2, { c with trace := c.trace ++ [Event.write (Item.error K.msgNotFromScripts)] }) := by
    intro m2
    unfold cmdAuth
    have h1 : ¬ args.length < 1 := by omega
    have h2 : ¬ args.length > 2 := by omega
    simp only [h1, h2, if_false, checkPubsub_of_not_subscribed c cmd hsub, getCtx, hnested,
      if_true]
    rfl
  refine ⟨e m, ?_, ?_, ?_, ?_⟩
  · intro m2; rw [e m2, e m]
  · rw [e m]
  · rw [e m]
  · rw [e m]

/-- Evaluation of `cmdAuth_nested_rejected`: the right password on a nested
connection. -/
theorem cmdAuth_nested_rejected_witness :
    nestedPeer.Ctx.subscriber = none ∧ nestedPeer.Ctx.nested = true ∧
    securedServer.passwords.lookup "default" = some "secret" ∧
    cmdAuth sampleMessages securedServer nestedPeer "AUTH" ["secret"] =
      (securedServer, { nestedPeer with trace := nestedPeer.trace ++
          [Event.write (Item.error sampleMessages.msgNotFromScripts)] }) ∧
    (cmdAuth sampleMessages securedServer nestedPeer "AUTH" ["secret"]).2.Ctx.authenticated
      = false :=
  have h := cmdAuth_nested_rejected sampleMessages securedServer nestedPeer "AUTH" ["secret"]
    rfl rfl (Or.inl rfl)
  ⟨rfl, rfl, by decide, h.1, h.2.2.1⟩

/-- C18, as stated, fails: on a subscribed connection that is not authenticated,
with a non-empty Credential Store, PING replies the NOAUTH error and not the
2-element array. -/
theorem cmdPing_subscribed_noauth_counterexample :
    subscribedQueuingPeer.Ctx.subscriber.isSome = true ∧
    securedServer.passwords ≠ [] ∧ subscribedQueuingPeer.Ctx.authenticated = false ∧
    (cmdPing sampleMessages securedServer subscribedQueuingPeer "PING" []).2.trace ≠
      subscribedQueuingPeer.trace ++
        [Event.block [Item.len 2, Item.bulk "pong", Item.bulk ""]] ∧
    (cmdPing sampleMessages securedServer subscribedQueuingPeer "PING" []).2.trace =
      subscribedQueuingPeer.trace ++ [Event.write (Item.error sampleMessages.msgNoAuth)] := by
  decide

/-- C18, amended: PING consults the Auth Gate first, subscribed or not. On a
connection whose subscriber is set, PING with zero or one argument replies the
2-element array of `pong` and the payload when the connection passes the Auth
Gate, and replies only the NOAUTH error when the Credential Store is non-empty
and the connection is not authenticated; so the array is the reply exactly when
the gate is passed. -/
theorem cmdPing_subscribed_auth_first {DB : Type} (K : Messages) (m : Miniredis DB)
    (c : Peer) (cmd : String) (args : List String)
    (hsub : c.Ctx.subscriber.isSome = true) (hlen : args.length ≤ 1) :
    (passesAuth m c →
      cmdPing K m c cmd args =
        (m, { c with trace := c.trace ++
                [Event.block [Item.len 2, Item.bulk "pong", Item.bulk (args.headD "")]] })) ∧
    (¬ passesAuth m c →
      cmdPing K m c cmd args =
        (m, { c with trace := c.trace ++ [Event.write (Item.error K.msgNoAuth)] })) ∧
    ((cmdPing K m c cmd args).2.trace = c.trace ++
        [Event.block [Item.len 2, Item.bulk "pong", Item.bulk (args.headD "")]] ↔
      passesAuth m c) := by
  have hyes : passesAuth m c →
      cmdPing K m c cmd args =
        (m, { c with trace := c.trace ++
                [Event.block [Item.len 2, Item.bulk "pong", Item.bulk (args.headD "")]] }) := by
    intro hauth
    unfold cmdPing
    rw [handleAuth_of_passesAuth K m c hauth]
    have hn : ¬ args.length > 1 := by omega
    simp only [hn, if_false, getCtx, hsub, if_true]
    match args, hlen with
    | [], _ => simp [Peer.Block, Writer.WriteBulk, Writer.WriteLen]
    | [a], _ => simp [Peer.Block, Writer.WriteBulk, Writer.WriteLen]
  have hno : ¬ passesAuth m c →
      cmdPing K m c cmd args =
        (m, { c with trace := c.trace ++ [Event.write (Item.error K.msgNoAuth)] }) := by
    intro hauth
    unfold cmdPing
    rw [handleAuth_of_not_passesAuth K m c hauth]
    rfl
  refine ⟨hyes, hno, ?_, ?_⟩
  · intro htr
    by_contra hauth
    rw [hno hauth] at htr
    simp at htr
  · intro hauth
    rw [hyes hauth]

/-- Evaluation of `cmdPing_subscribed_auth_first` on a subscribed connection
that is not authenticated. -/
theorem cmdPing_subscribed_auth_first_witness :
    subscribedQueuingPeer.Ctx.subscriber.isSome = true ∧
    ¬ passesAuth securedServer subscribedQueuingPeer ∧
    cmdPing sampleMessages securedServer subscribedQueuingPeer "PING" ["hi"] =
      (securedServer, { subscribedQueuingPeer with trace := subscribedQueuingPeer.trace ++
          [Event.write (Item.error sampleMessages.msgNoAuth)] }) :=
  ⟨rfl, by decide,
    (cmdPing_subscribed_auth_first sampleMessages securedServer subscribedQueuingPeer "PING"
      ["hi"] rfl (by decide)).2.1 (by decide)⟩

/-! ## Outcome of a handler call -/

theorem handleAuth_cases {DB : Type} (K : Messages) (m : Miniredis DB) (c : Peer) :
    handleAuth K m c = (true, c) ∨ handleAuth K m c = (false, c.WriteError K.msgNoAuth) := by
  by_cases h : passesAuth m c
  · exact Or.inl (handleAuth_of_passesAuth K m c h)
  · exact Or.inr (handleAuth_of_not_passesAuth K m c h)

theorem checkPubsub_cases (c : Peer) (cmd : String) :
    checkPubsub c cmd = (false, c) ∨
    checkPubsub c cmd = (true, c.WriteError msgPubsubRestricted) := by
  unfold checkPubsub
  split
  · exact Or.inr rfl
  · exact Or.inl rfl

theorem handlerOutcome_mono {b : Bool} {c r : Peer} (h : handlerOutcome false c r) :
    handlerOutcome b c r := by
  obtain ⟨e, rest, h1, h2, h3, h4⟩ := h
  refine ⟨e, rest, h1, h2, h3, ?_⟩
  rcases h4 with h4 | ⟨h5, _⟩
  · exact Or.inl h4
  · exact Bool.noConfusion h5

theorem handlerOutcome_WriteError (b : Bool) (c : Peer) (msg : String) :
    handlerOutcome b c (c.WriteError msg) :=
  ⟨Event.write (Item.error msg), [], rfl, rfl, Or.inl rfl, Or.inl rfl⟩

theorem handlerOutcome_setDirty_WriteError (b : Bool) (c : Peer) (msg : String) :
    handlerOutcome b c ((setDirty c).WriteError msg) :=
  ⟨Event.write (Item.error msg), [], rfl, rfl, Or.inl rfl, Or.inl rfl⟩

theorem handlerOutcome_WriteError_setDirty (b : Bool) (c : Peer) (msg : String) :
    handlerOutcome b c (setDirty (c.WriteError msg)) :=
  ⟨Event.write (Item.error msg), [], rfl, rfl, Or.inl rfl, Or.inl rfl⟩

/-- Each closure, when run, writes exactly one reply; only the closure of AUTH
may change authenticated, to true and with the reply OK. -/
theorem txCmd_run_one_reply {DB : Type} (cb : txCmd) (m : Miniredis DB) (c : Peer) :
    ∃ e : Event, e.isReply = true ∧ (cb.run m c).2.trace = c.trace ++ [e] ∧
      ((cb.run m c).2.Ctx.authenticated = c.Ctx.authenticated ∨
        ((match cb with | txCmd.auth _ _ => true | _ => false) = true ∧
          (cb.run m c).2.Ctx.authenticated = true ∧ e = Event.write (Item.inline "OK"))) := by
  cases cb with
  | ping payload =>
    show ∃ e : Event, e.isReply = true ∧ (cmdPing_cb payload m c).2.trace = c.trace ++ [e] ∧
      ((cmdPing_cb payload m c).2.Ctx.authenticated = c.Ctx.authenticated ∨ _)
    unfold cmdPing_cb
    split
    · exact ⟨Event.write (Item.inline "PONG"), rfl, rfl, Or.inl rfl⟩
    · exact ⟨Event.write (Item.bulk payload), rfl, rfl, Or.inl rfl⟩
  | auth username pw =>
    show ∃ e : Event, e.isReply = true ∧
      (cmdAuth_cb username pw m c).2.trace = c.trace ++ [e] ∧
      ((cmdAuth_cb username pw m c).2.Ctx.authenticated = c.Ctx.authenticated ∨
        (true = true ∧ (cmdAuth_cb username pw m c).2.Ctx.authenticated = true ∧
          e = Event.write (Item.inline "OK")))
    unfold cmdAuth_cb
    split
    · exact ⟨Event.write (Item.error _), rfl, rfl, Or.inl rfl⟩
    · split
      · exact ⟨Event.write (Item.error _), rfl, rfl, Or.inl rfl⟩
      · split
        · exact ⟨Event.write (Item.error _), rfl, rfl, Or.inl rfl⟩
        · exact ⟨Event.write (Item.inline "OK"), rfl, rfl, Or.inr ⟨rfl, rfl, rfl⟩⟩
  | echo arg0 =>
    exact ⟨Event.write (Item.bulk arg0), rfl, rfl, Or.inl rfl⟩
  | select arg0 =>
    show ∃ e : Event, e.isReply = true ∧ (cmdSelect_cb arg0 m c).2.trace = c.trace ++ [e] ∧
      ((cmdSelect_cb arg0 m c).2.Ctx.authenticated = c.Ctx.authenticated ∨ _)
    unfold cmdSelect_cb
    split
    · exact ⟨Event.write (Item.error _), rfl, rfl, Or.inl rfl⟩
    · split
      · exact ⟨Event.write (Item.error _), rfl, rfl, Or.inl rfl⟩
      · exact ⟨Event.write (Item.inline "OK"), rfl, rfl, Or.inl rfl⟩
  | swapdb arg0 arg1 =>
    show ∃ e : Event, e.isReply = true ∧
      (cmdSwapdb_cb arg0 arg1 m c).2.trace = c.trace ++ [e] ∧
      ((cmdSwapdb_cb arg0 arg1 m c).2.Ctx.authenticated = c.Ctx.authenticated ∨ _)
    unfold cmdSwapdb_cb
    split
    · exact ⟨Event.write (Item.error _), rfl, rfl, Or.inl rfl⟩
    · split
      · exact ⟨Event.write (Item.error _), rfl, rfl, Or.inl rfl⟩
      · split
        · exact ⟨Event.write (Item.error _), rfl, rfl, Or.inl rfl⟩
        · exact ⟨Event.write (Item.inline "OK"), rfl, rfl, Or.inl rfl⟩

theorem handlerOutcome_run {DB : Type} (cb : txCmd) (m : Miniredis DB) (c : Peer) :
    handlerOutcome (match cb with | txCmd.auth _ _ => true | _ => false) c (cb.run m c).2 := by
  obtain ⟨e, h1, h2, h3⟩ := txCmd_run_one_reply cb m c
  refine ⟨e, [], h1, h2, Or.inl rfl, ?_⟩
  rcases h3 with h3 | ⟨h4, h5, h6⟩
  · exact Or.inl h3
  · exact Or.inr ⟨h4, h5, h6, rfl⟩

/-- The Transaction Wrapper writes exactly one reply: the one of the closure, or
the queuing acknowledgment. -/
theorem handlerOutcome_withTx {DB : Type} (K : Messages) (m : Miniredis DB) (c : Peer)
    (cb : txCmd) :
    handlerOutcome (match cb with | txCmd.auth _ _ => true | _ => false) c
      (withTx K m c cb).2 := by
  cases hq : c.Ctx.queuing with
  | false =>
    rw [withTx_immediate K m c cb hq]
    exact handlerOutcome_run cb m c
  | true =>
    rw [withTx_queuing K m c cb hq]
    exact ⟨Event.write (Item.inline K.msgQueued), [], rfl, rfl, Or.inl rfl, Or.inl rfl⟩

theorem handlerOutcome_cmdPing {DB : Type} (K : Messages) (m : Miniredis DB) (c : Peer)
    (cmd : String) (args : List String) :
    handlerOutcome false c (cmdPing K m c cmd args).2 := by
  unfold cmdPing
  rcases handleAuth_cases K m c with h | h
  · rw [h]
    simp only []
    split
    · exact handlerOutcome_setDirty_WriteError _ _ _
    · split
      · exact ⟨Event.block [Item.len 2, Item.bulk "pong", Item.bulk _], [], rfl, rfl,
          Or.inl rfl, Or.inl rfl⟩
      · exact handlerOutcome_withTx K m c (txCmd.ping _)
  · rw [h]
    exact handlerOutcome_WriteError _ _ _

theorem handlerOutcome_cmdAuth {DB : Type} (K : Messages) (m : Miniredis DB) (c : Peer)
    (cmd : String) (args : List String) :
    handlerOutcome true c (cmdAuth K m c cmd args).2 := by
  unfold cmdAuth
  split
  · exact handlerOutcome_setDirty_WriteError _ _ _
  · split
    · exact handlerOutcome_WriteError _ _ _
    · rcases checkPubsub_cases c cmd with h | h
      · rw [h]
        simp only []
        split
        · exact handlerOutcome_WriteError _ _ _
        · match args with
          | [] => simp at *
          | [a0] => exact handlerOutcome_withTx K m c (txCmd.auth "default" a0)
          | [a0, a1] => exact handlerOutcome_withTx K m c (txCmd.auth a0 a1)
          | _ :: _ :: _ :: _ => simp at *
      · rw [h]
        exact handlerOutcome_WriteError _ _ _

theorem handlerOutcome_cmdEcho {DB : Type} (K : Messages) (m : Miniredis DB) (c : Peer)
    (cmd : String) (args : List String) :
    handlerOutcome false c (cmdEcho K m c cmd args).2 := by
  unfold cmdEcho
  split
  · rcases handleAuth_cases K m c with h | h
    · rcases checkPubsub_cases c cmd with h2 | h2
      · simp only [h, h2]
        exact handlerOutcome_withTx K m c (txCmd.echo _)
      · simp only [h, h2]
        exact handlerOutcome_WriteError _ _ _
    · simp only [h]
      exact handlerOutcome_WriteError _ _ _
  · exact handlerOutcome_setDirty_WriteError _ _ _

theorem handlerOutcome_cmdSelect {DB : Type} (K : Messages) (m : Miniredis DB) (c : Peer)
    (cmd : String) (args : List String) :
    handlerOutcome false c (cmdSelect K m c cmd args).2 := by
  unfold cmdSelect
  split
  · rcases handleAuth_cases K m c with h | h
    · rcases checkPubsub_cases c cmd with h2 | h2
      · simp only [h, h2]
        exact handlerOutcome_withTx K m c (txCmd.select _)
      · simp only [h, h2]
        exact handlerOutcome_WriteError _ _ _
    · simp only [h]
      exact handlerOutcome_WriteError _ _ _
  · exact handlerOutcome_setDirty_WriteError _ _ _

theorem handlerOutcome_cmdSwapdb {DB : Type} (K : Messages) (m : Miniredis DB) (c : Peer)
    (cmd : String) (args : List String) :
    handlerOutcome false c (cmdSwapdb K m c cmd args).2 := by
  unfold cmdSwapdb
  split
  · rcases handleAuth_cases K m c with h | h
    · simp only [h]
      exact handlerOutcome_withTx K m c (txCmd.swapdb _ _)
    · simp only [h]
      exact handlerOutcome_WriteError _ _ _
  · exact handlerOutcome_setDirty_WriteError _ _ _

theorem handlerOutcome_cmdQuit {DB : Type} (m : Miniredis DB) (c : Peer)
    (cmd : String) (args : List String) :
    handlerOutcome false c (cmdQuit m c cmd args).2 :=
  ⟨Event.write (Item.inline "OK"), [Event.close], rfl,
    by simp [cmdQuit, Peer.Close, Peer.WriteOK, Peer.WriteInline], Or.inr rfl, Or.inl rfl⟩

theorem handlerOutcome_cmdResp3 {DB : Type} (m : Miniredis DB) (c : Peer)
    (cmd : String) (args : List String) :
    handlerOutcome false c (cmdResp3 m c cmd args).2 :=
  ⟨Event.write (Item.inline "OK"), [], rfl, rfl, Or.inl rfl, Or.inl rfl⟩

/-- Every handler registered by `commandsConnection` has the outcome described
by `handlerOutcome`; only the one registered as AUTH may change authenticated. -/
theorem handlerOutcome_registered {DB : Type} (K : Messages) (name : String)
    (h : Miniredis DB → Peer → String → List String → Miniredis DB × Peer)
    (hreg : commandsConnection K name = some h) (m : Miniredis DB) (c : Peer)
    (cmd : String) (args : List String) :
    handlerOutcome (decide (name = "AUTH")) c (h m c cmd args).2 := by
  unfold commandsConnection at hreg
  split_ifs at hreg with h1 h2 h3 h4 h5 h6 h7
  · cases hreg
    simp only [h1, decide_True]
    exact handlerOutcome_cmdAuth K m c cmd args
  · cases hreg; exact handlerOutcome_mono (handlerOutcome_cmdEcho K m c cmd args)
  · cases hreg; exact handlerOutcome_mono (handlerOutcome_cmdPing K m c cmd args)
  · cases hreg; exact handlerOutcome_mono (handlerOutcome_cmdSelect K m c cmd args)
  · cases hreg; exact handlerOutcome_mono (handlerOutcome_cmdSwapdb K m c cmd args)
  · cases hreg; exact handlerOutcome_mono (handlerOutcome_cmdQuit m c cmd args)
  · cases hreg; exact handlerOutcome_mono (handlerOutcome_cmdResp3 m c cmd args)

/-- The names under which `commandsConnection` registers a handler. -/
theorem commandsConnection_names {DB : Type} (K : Messages) (name : String) :
    (commandsConnection K name :
      Option (Miniredis DB → Peer → String → List String → Miniredis DB × Peer)).isSome = true ↔
    name ∈ ["AUTH", "ECHO", "PING", "SELECT", "SWAPDB", "QUIT", "RESP3"] := by
  unfold commandsConnection
  constructor
  · intro h
    split_ifs at h with h1 h2 h3 h4 h5 h6 h7
    all_goals first
      | (subst_vars; decide)
      | exact Bool.noConfusion h
  · intro h
    simp only [List.mem_cons, List.mem_singleton, List.not_mem_nil, or_false] at h
    rcases h with h | h | h | h | h | h | h <;> subst h <;> rfl

/-! ## Invariants over all handlers -/

/-- C19: for every handler registered by `commandsConnection` (AUTH, ECHO, PING,
SELECT, SWAPDB, QUIT, RESP3), every server, connection, command name and
argument list: if authenticated is true before the call it is true after it;
and if the call changes authenticated at all, the handler is AUTH, the flag
becomes true and the reply is OK. -/
theorem authenticated_monotone {DB : Type} (K : Messages) (name : String)
    (h : Miniredis DB → Peer → String → List String → Miniredis DB × Peer)
    (hreg : commandsConnection K name = some h) (m : Miniredis DB) (c : Peer)
    (cmd : String) (args : List String) :
    (c.Ctx.authenticated = true → (h m c cmd args).2.Ctx.authenticated = true) ∧
    ((h m c cmd args).2.Ctx.authenticated ≠ c.Ctx.authenticated →
      name = "AUTH" ∧ (h m c cmd args).2.Ctx.authenticated = true ∧
      (h m c cmd args).2.trace = c.trace ++ [Event.write (Item.inline "OK")]) := by
  obtain ⟨e, rest, _, htr, _, hauth⟩ := handlerOutcome_registered K name h hreg m c cmd args
  constructor
  · intro hc
    rcases hauth with h1 | ⟨_, h2, _, _⟩
    · rw [h1, hc]
    · exact h2
  · intro hne
    rcases hauth with h1 | ⟨h0, h2, h3, h4⟩
    · exact absurd h1 hne
    · refine ⟨of_decide_eq_true h0, h2, ?_⟩
      rw [htr, h3, h4]

/-- Evaluation of `authenticated_monotone`: a wrong password on an authenticated
connection leaves it authenticated. -/
theorem authenticated_monotone_witness :
    commandsConnection sampleMessages "AUTH" = some (@cmdAuth Int sampleMessages) ∧
    authenticatedPeer.Ctx.authenticated = true ∧
    securedServer.passwords.lookup "default" ≠ some "guess" ∧
    (cmdAuth sampleMessages securedServer authenticatedPeer "AUTH"
      ["guess"]).2.Ctx.authenticated = true :=
  ⟨rfl, rfl, by decide,
    (authenticated_monotone sampleMessages "AUTH" (cmdAuth sampleMessages) rfl
      securedServer authenticatedPeer "AUTH" ["guess"]).1 rfl⟩

/-- C20: for every handler registered by `commandsConnection` (AUTH, ECHO, PING,
SELECT, SWAPDB, QUIT, RESP3), every server, connection, command name and
argument list, the call appends to what the connection has written exactly one
reply (a status, a bulk string, an error, or one block holding a 2-element
array), followed by nothing else or, for QUIT, by the closing of the
connection; and each closure handed to the Transaction Wrapper, when it is run,
appends exactly one reply. -/
theorem handlers_write_one_reply {DB : Type} (K : Messages) (name : String)
    (h : Miniredis DB → Peer → String → List String → Miniredis DB × Peer)
    (hreg : commandsConnection K name = some h) (m : Miniredis DB) (c : Peer)
    (cmd : String) (args : List String) :
    (∃ e : Event, e.isReply = true ∧
      ((h m c cmd args).2.trace = c.trace ++ [e] ∨
       (h m c cmd args).2.trace = c.trace ++ [e, Event.close])) ∧
    (∀ cb : txCmd, ∃ e : Event, e.isReply = true ∧ (cb.run m c).2.trace = c.trace ++ [e]) := by
  constructor
  · obtain ⟨e, rest, h1, h2, h3, _⟩ := handlerOutcome_registered K name h hreg m c cmd args
    refine ⟨e, h1, ?_⟩
    rcases h3 with h3 | h3
    · left; rw [h2, h3]
    · right; rw [h2, h3]
  · intro cb
    obtain ⟨e, h1, h2, _⟩ := txCmd_run_one_reply cb m c
    exact ⟨e, h1, h2⟩

/-- Evaluation of `handlers_write_one_reply` at SWAPDB 1 2. -/
theorem handlers_write_one_reply_witness :
    commandsConnection sampleMessages "SWAPDB" = some (@cmdSwapdb Int sampleMessages) ∧
    ∃ e : Event, e.isReply = true ∧
      ((cmdSwapdb sampleMessages sampleServer freshPeer "SWAPDB" ["1", "2"]).2.trace =
          freshPeer.trace ++ [e] ∨
       (cmdSwapdb sampleMessages sampleServer freshPeer "SWAPDB" ["1", "2"]).2.trace =
          freshPeer.trace ++ [e, Event.close]) :=
  ⟨rfl, (handlers_write_one_reply sampleMessages "SWAPDB" (cmdSwapdb sampleMessages) rfl
    sampleServer freshPeer "SWAPDB" ["1", "2"]).1⟩

end CmdConnection
